import Mathlib

/-!
Verification of the GemYum seeding scripts.

Shallow embedding of the data-handling logic of the repository's Python
seeding scripts, together with proofs about the spec's claims:

* the SQLite row/table model and the semantics of `INSERT OR REPLACE`
  as used by `import_additional_restaurants.insert_food`,
  `build_ultimate_nutrients_db.UltimateNutritionDB._insert_food` and
  `import_openfoodfacts.OpenFoodFactsImporter._insert_food`
  (table DDL from `build_ultimate_nutrients_db.SCHEMA` and
  `build_comprehensive_nutrients_db.ComprehensiveNutritionDB.create_schema`);
* the check-then-update upsert of `add_chipotle_data.add_chipotle_to_database`
  and its unit-conversion helpers;
* the glycemic-index estimator `update_glycemic_index.find_gi_for_food`
  over `glycemic_index_data.GLYCEMIC_INDEX_MAP`, and
  `glycemic_index_data.calculate_glycemic_load`.
-/

namespace GemYum

/-! ## Python string helpers

Strings are manipulated as `List Char` (a Lean `String`'s `data`), so that
every operation is a structurally recursive function the kernel can
evaluate.  All the script's inputs are ASCII. -/

/-- Python `str.lower()` (ASCII range, which covers all data in the repo). -/
def charLower (c : Char) : Char :=
  if 65 ≤ c.toNat ∧ c.toNat ≤ 90 then Char.ofNat (c.toNat + 32) else c

def lowerChars (s : List Char) : List Char := s.map charLower

/-- Python `s.split()`: split on whitespace runs, dropping empty pieces. -/
def pySplitChars (s : List Char) : List (List Char) :=
  let r := s.foldr
    (fun c acc =>
      if c.isWhitespace then
        (if acc.1 = ([] : List Char) then ([], acc.2) else ([], acc.1 :: acc.2))
      else (c :: acc.1, acc.2))
    ([], [])
  if r.1 = ([] : List Char) then r.2 else r.1 :: r.2

/-- Python's substring test `needle in hay`. -/
def chContains (hay needle : List Char) : Bool :=
  (List.range (hay.length + 1)).any
    (fun i => decide (needle = (hay.drop i).take needle.length))

/-- Python `str.strip()`. -/
def pyStrip (s : List Char) : List Char :=
  ((s.dropWhile Char.isWhitespace).reverse.dropWhile Char.isWhitespace).reverse

/-- `sep.join l` for character lists. -/
def joinWith (sep : List Char) : List (List Char) → List Char
  | [] => []
  | [x] => x
  | x :: rest => x ++ sep ++ joinWith sep rest

/-- Order-preserving deduplication; models Python's `set(...)` collapse of
repeated search terms (Python's set iteration order is arbitrary but fixed
within a process; we pick first-occurrence order as the representative). -/
def dedupKeepFirst (l : List (List Char)) : List (List Char) :=
  l.foldl (fun acc x => if x ∈ acc then acc else acc ++ [x]) []

/-! ## SQL values, rows and tables

A stored SQL value is either TEXT or a numeric (INTEGER/REAL, modelled as a
rational).  A row is its rowid together with the association list of its
non-NULL columns; a column absent from the list is NULL.  A table is the
list of its rows in rowid order. -/

inductive Val where
  | str : String → Val
  | num : ℚ → Val
deriving DecidableEq, Repr

/-- First-match association-list lookup.  Rows and Python dicts have unique
keys, so first match is the match. -/
def alookup {β : Type} : List (String × β) → String → Option β
  | [], _ => none
  | (k, v) :: rest, c => if k = c then some v else alookup rest c

structure DBRow where
  id : Nat
  fields : List (String × Val)
deriving DecidableEq, Repr

/-- Value of column `c` in row `r`; `none` is SQL NULL. -/
def getCol (r : DBRow) (c : String) : Option Val :=
  alookup r.fields c

/-- Replace the first binding of `k`, appending when absent.  This is both
SQL `UPDATE ... SET k = v` on our NULL-as-absent row representation and a
Python dict assignment `d[k] = v`. -/
def aset {β : Type} : List (String × β) → String → β → List (String × β)
  | [], k, v => [(k, v)]
  | (k', v') :: rest, k, v =>
    if k' = k then (k, v) :: rest else (k', v') :: aset rest k v

/-- SQL equality of two rows on a column list, with SQL NULL semantics:
NULL compares unequal to everything, including NULL.  This is the notion of
"duplicate" used by SQLite UNIQUE constraints. -/
def sqlEqOn (cols : List String) (r1 r2 : DBRow) : Bool :=
  cols.all fun c =>
    match getCol r1 c, getCol r2 c with
    | some a, some b => decide (a = b)
    | _, _ => false

/-- The constraint surface of a table: its UNIQUE column lists and its
NOT NULL columns (the INTEGER PRIMARY KEY rowid is handled separately and
never conflicts because the importers never supply it). -/
structure TableSpec where
  uniques : List (List String)
  notNull : List String

/-- The spec's identity-tuple columns, under the `foods` table's column
names. -/
def foodsIdCols : List String := ["name", "brand_name", "restaurant_name", "data_source"]

/-- The identity-tuple columns of the `nutrients` table, exactly its
`UNIQUE(food_name, brand_name, restaurant_name, source)` clause. -/
def nutrIdCols : List String := ["food_name", "brand_name", "restaurant_name", "source"]

/-- `foods` table of `build_ultimate_nutrients_db.SCHEMA` (lines 33-122):
`id INTEGER PRIMARY KEY AUTOINCREMENT`, `name TEXT NOT NULL`, and **no**
UNIQUE constraint on any column combination. -/
def foodsSpec : TableSpec := ⟨[], ["name"]⟩

/-- `nutrients` table of
`build_comprehensive_nutrients_db.ComprehensiveNutritionDB.create_schema`
(lines 46-105): `UNIQUE(food_name, brand_name, restaurant_name, source)`,
with `food_name`, `kcal_per_100g` and `source` NOT NULL. -/
def nutrientsSpec : TableSpec :=
  ⟨[nutrIdCols], ["food_name", "kcal_per_100g", "source"]⟩

/-- SQLite `INSERT OR REPLACE INTO t (cols) VALUES (vals)`: if a NOT NULL
column is not supplied the statement fails (`none`, a `sqlite3.IntegrityError`);
otherwise every existing row that conflicts with the new row on some UNIQUE
constraint is deleted and the new row is appended with a fresh rowid.
Unsupplied columns of the new row are NULL (absent): REPLACE does not merge
with the old row. -/
def insertOrReplace (spec : TableSpec) (tbl : List DBRow) (nextId : Nat)
    (fields : List (String × Val)) : Option (List DBRow) :=
  if spec.notNull.all (fun c => (alookup fields c).isSome) then
    let newRow : DBRow := ⟨nextId, fields⟩
    some ((tbl.filter
      (fun r => !(spec.uniques.any (fun cs => sqlEqOn cs r newRow)))) ++ [newRow])
  else
    none

end GemYum

namespace GemYum

/-! ## Glycemic index reference data

`glycemic_index_data.GLYCEMIC_INDEX_MAP`, kept as a `(key, value)` list in
the dict's literal (= insertion = iteration) order. -/

def GLYCEMIC_INDEX_MAP : List (String × Nat) := [
  ("apple", 36),
  ("pear", 38),
  ("orange", 43),
  ("grapefruit", 25),
  ("cherries", 22),
  ("plum", 39),
  ("peach", 42),
  ("strawberries", 40),
  ("strawberry", 40),
  ("blackberries", 25),
  ("raspberries", 32),
  ("blueberries", 53),
  ("grapes", 46),
  ("kiwi", 53),
  ("avocado", 15),
  ("mango", 60),
  ("papaya", 59),
  ("pineapple", 59),
  ("cantaloupe", 65),
  ("raisins", 64),
  ("watermelon", 72),
  ("dates", 103),
  ("broccoli", 15),
  ("cauliflower", 15),
  ("spinach", 15),
  ("lettuce", 15),
  ("kale", 15),
  ("cabbage", 10),
  ("mushroom", 15),
  ("tomato", 15),
  ("cucumber", 15),
  ("bell pepper", 15),
  ("pepper", 15),
  ("asparagus", 15),
  ("celery", 15),
  ("zucchini", 15),
  ("eggplant", 15),
  ("green beans", 15),
  ("carrots", 35),
  ("carrot", 35),
  ("sweet potato", 54),
  ("yam", 54),
  ("corn", 60),
  ("beets", 61),
  ("beetroot", 61),
  ("potato", 85),
  ("russet potato", 85),
  ("instant mashed potato", 87),
  ("pumpkin", 75),
  ("quinoa", 53),
  ("steel cut oats", 42),
  ("oatmeal", 55),
  ("oats", 55),
  ("barley", 28),
  ("bulgur", 48),
  ("buckwheat", 54),
  ("brown rice", 68),
  ("basmati rice", 58),
  ("couscous", 65),
  ("wild rice", 57),
  ("white rice", 73),
  ("jasmine rice", 89),
  ("instant rice", 87),
  ("rice cakes", 82),
  ("cornflakes", 81),
  ("corn flakes", 81),
  ("rice krispies", 82),
  ("cheerios", 74),
  ("instant oatmeal", 79),
  ("whole grain bread", 51),
  ("whole wheat bread", 54),
  ("sourdough bread", 54),
  ("rye bread", 51),
  ("pumpernickel", 46),
  ("ezekiel bread", 36),
  ("pita bread", 57),
  ("naan", 62),
  ("croissant", 67),
  ("white bread", 75),
  ("french bread", 95),
  ("baguette", 95),
  ("bagel", 72),
  ("english muffin", 77),
  ("hamburger bun", 75),
  ("hot dog bun", 75),
  ("whole wheat pasta", 42),
  ("pasta", 49),
  ("spaghetti", 49),
  ("fettuccine", 47),
  ("linguine", 49),
  ("ravioli", 39),
  ("tortellini", 50),
  ("soba noodles", 46),
  ("rice noodles", 61),
  ("udon noodles", 62),
  ("instant noodles", 70),
  ("overcooked pasta", 70),
  ("lentils", 32),
  ("chickpeas", 28),
  ("garbanzo beans", 28),
  ("black beans", 30),
  ("kidney beans", 24),
  ("pinto beans", 39),
  ("navy beans", 31),
  ("soybeans", 16),
  ("split peas", 25),
  ("hummus", 6),
  ("milk", 31),
  ("skim milk", 32),
  ("whole milk", 27),
  ("yogurt", 33),
  ("greek yogurt", 11),
  ("plain yogurt", 14),
  ("cottage cheese", 10),
  ("cheese", 0),
  ("cheddar", 0),
  ("mozzarella", 0),
  ("parmesan", 0),
  ("butter", 0),
  ("ice cream", 61),
  ("frozen yogurt", 65),
  ("chicken", 0),
  ("beef", 0),
  ("pork", 0),
  ("fish", 0),
  ("salmon", 0),
  ("tuna", 0),
  ("shrimp", 0),
  ("eggs", 0),
  ("egg", 0),
  ("tofu", 15),
  ("tempeh", 15),
  ("almonds", 15),
  ("almond", 15),
  ("walnuts", 15),
  ("walnut", 15),
  ("cashews", 22),
  ("cashew", 22),
  ("peanuts", 14),
  ("peanut", 14),
  ("pistachios", 15),
  ("pecans", 10),
  ("macadamia", 10),
  ("chia seeds", 1),
  ("flax seeds", 1),
  ("pumpkin seeds", 10),
  ("sunflower seeds", 35),
  ("dark chocolate", 23),
  ("nuts", 15),
  ("popcorn", 55),
  ("milk chocolate", 49),
  ("potato chips", 56),
  ("tortilla chips", 63),
  ("pretzels", 83),
  ("crackers", 74),
  ("rice crackers", 91),
  ("jelly beans", 78),
  ("gummy bears", 78),
  ("donuts", 76),
  ("donut", 76),
  ("cookies", 77),
  ("oreos", 77),
  ("cake", 73),
  ("muffin", 71),
  ("water", 0),
  ("coffee", 0),
  ("tea", 0),
  ("diet soda", 0),
  ("almond milk", 25),
  ("soy milk", 34),
  ("orange juice", 50),
  ("apple juice", 41),
  ("cranberry juice", 68),
  ("soda", 70),
  ("cola", 70),
  ("coca-cola", 70),
  ("pepsi", 70),
  ("sprite", 70),
  ("gatorade", 78),
  ("energy drink", 70),
  ("french fries", 75),
  ("fries", 75),
  ("pizza", 60),
  ("hamburger", 66),
  ("cheeseburger", 66),
  ("burrito", 55),
  ("taco", 52),
  ("fried chicken", 70),
  ("pancakes", 67),
  ("waffles", 76),
  ("french toast", 75),
  ("granola", 61),
  ("muesli", 56),
  ("ketchup", 55),
  ("bbq sauce", 70),
  ("honey", 61),
  ("maple syrup", 54),
  ("jam", 65),
  ("peanut butter", 14),
  ("nutella", 55)
]

/-! The stage helpers below are the four sequential blocks of
`update_glycemic_index.find_gi_for_food`. -/

/-- Stage 1 (lines 22-24): direct dict lookup of the lowercased name. -/
def directMatch (table : List (String × Nat)) (foodLower : List Char) : Option Nat :=
  (table.find? (fun p => p.1.data = foodLower)).map (·.2)

/-- Stage 2 (lines 26-30): first whitespace token that is a dict key. -/
def tokenMatch (table : List (String × Nat)) (foodLower : List Char) : Option Nat :=
  (pySplitChars foodLower).findSome?
    (fun w => (table.find? (fun p => p.1.data = w)).map (·.2))

/-- Stage 3 (lines 32-35): first dict key (in dict iteration order) that is a
substring of the lowercased name. -/
def substrMatch (table : List (String × Nat)) (foodLower : List Char) : Option Nat :=
  (table.find? (fun p => chContains foodLower p.1.data)).map (·.2)

/-- Stage 4 (lines 37-128): the ordered `if`/`elif` category fallback chain. -/
def fallbackRules (fl : List Char) : Option Nat :=
  if ["burger", "cheeseburger", "hamburger"].any (fun t => chContains fl t.data) then some 66
  else if chContains fl "pizza".data then some 60
  else if ["fries", "french fries"].any (fun t => chContains fl t.data) then some 75
  else if chContains fl "salad".data && !(chContains fl "pasta".data) then some 15
  else if chContains fl "grilled chicken".data || chContains fl "grilled fish".data then some 0
  else if ["donut", "doughnut"].any (fun t => chContains fl t.data) then some 76
  else if chContains fl "pancake".data then some 67
  else if chContains fl "waffle".data then some 76
  else if chContains fl "taco".data then some 52
  else if chContains fl "burrito".data then some 55
  else if chContains fl "sandwich".data then
    (if chContains fl "whole wheat".data || chContains fl "whole grain".data then some 54
     else some 70)
  else if chContains fl "wrap".data then some 57
  else if chContains fl "rice".data then
    (if chContains fl "brown".data then some 68
     else if chContains fl "fried".data then some 75
     else some 73)
  else if chContains fl "pasta".data || chContains fl "spaghetti".data || chContains fl "fettuccine".data then some 49
  else if chContains fl "noodle".data then
    (if chContains fl "rice".data then some 61 else some 55)
  else if chContains fl "bread".data then
    (if ["whole wheat", "whole grain", "rye"].any (fun t => chContains fl t.data) then some 51
     else some 75)
  else if chContains fl "coffee".data && !(chContains fl "frapp".data) then some 0
  else if chContains fl "tea".data && !(chContains fl "sweet".data) then some 0
  else if ["soda", "cola", "pepsi", "sprite"].any (fun t => chContains fl t.data) then some 70
  else if chContains fl "juice".data then some 50
  else if chContains fl "smoothie".data then some 55
  else if chContains fl "shake".data then some 61
  else if chContains fl "ice cream".data then some 61
  else if chContains fl "cookie".data then some 77
  else if chContains fl "cake".data then some 73
  else if chContains fl "muffin".data then some 71
  else if chContains fl "bagel".data then some 72
  else if chContains fl "croissant".data then some 67
  else if chContains fl "chips".data then
    (if chContains fl "potato".data then some 56
     else if chContains fl "tortilla".data then some 63
     else some 60)
  else if chContains fl "wings".data || chContains fl "chicken tender".data then
    (if chContains fl "fried".data || chContains fl "buffalo".data then some 70 else some 0)
  else if chContains fl "soup".data then
    (if chContains fl "lentil".data || chContains fl "bean".data then some 30 else some 40)
  else if chContains fl "pho".data then some 40
  else if chContains fl "banh mi".data then some 75
  else none

/-- `update_glycemic_index.find_gi_for_food`, with the reference table as an
explicit parameter (the Python reads the module-level dict). -/
def find_gi_core (table : List (String × Nat)) (food_name : String) : Option Nat :=
  if food_name = "" then none
  else
    let foodLower := lowerChars food_name.data
    match directMatch table foodLower with
    | some v => some v
    | none =>
      match tokenMatch table foodLower with
      | some v => some v
      | none =>
        match substrMatch table foodLower with
        | some v => some v
        | none => fallbackRules foodLower

def find_gi_for_food (food_name : String) : Option Nat :=
  find_gi_core GLYCEMIC_INDEX_MAP food_name

/-! ## Glycemic load -/

/-- Round-half-to-even to an integer (Python's `round` tie behaviour). -/
def roundHalfEven (q : ℚ) : ℤ :=
  let f := q.floor
  let frac := q - f
  if frac < 1/2 then f
  else if 1/2 < frac then f + 1
  else if f % 2 = 0 then f else f + 1

/-- Python `round(x, 1)` on exact values (the script's float arithmetic is
modelled exactly over ℚ). -/
def pyRound1 (q : ℚ) : ℚ := (roundHalfEven (10 * q) : ℚ) / 10

/-- `glycemic_index_data.calculate_glycemic_load` (lines 276-283). -/
def calculate_glycemic_load (glycemic_index carbs_per_serving : Option ℚ) : Option ℚ :=
  match glycemic_index, carbs_per_serving with
  | some gi, some c => some (pyRound1 (gi * c / 100))
  | _, _ => none


/-! ## The Chipotle importer (`add_chipotle_data.py`) -/

/-- `add_chipotle_data.convert_portion_to_grams` conversion table
(lines 487-496), keys already lowercase in the source. -/
def chipotleConversions : List (String × ℚ) := [
  ("1 ea", 50),
  ("1 oz", 28.35),
  ("2 oz", 56.7),
  ("3 oz", 85.05),
  ("4 oz", 113.4),
  ("6 oz", 170.1),
  ("8 oz", 226.8),
  ("2 fl oz", 60)
]

/-- `add_chipotle_data.convert_portion_to_grams` (lines 482-498):
lowercase + strip the portion string, look it up, default to 100.0 g. -/
def convert_portion_to_grams (portion : String) : ℚ :=
  let key := pyStrip (lowerChars portion.data)
  match chipotleConversions.find? (fun p => p.1.data = key) with
  | some p => p.2
  | none => 100

/-- `add_chipotle_data.convert_to_per_100g` (lines 500-504). -/
def convert_to_per_100g (value serving_size_grams : ℚ) : ℚ :=
  if serving_size_grams = 0 then 0 else value * 100 / serving_size_grams

/-- One entry of `add_chipotle_data.CHIPOTLE_DATA`: every key the importer
indexes is present (a missing key would raise `KeyError` and skip the item). -/
structure ChipotleItem where
  item_name : String
  portion : String
  calories : ℚ
  calories_from_fat : ℚ
  total_fat_g : ℚ
  saturated_fat_g : ℚ
  trans_fat_g : ℚ
  cholesterol_mg : ℚ
  sodium_mg : ℚ
  carbohydrates_g : ℚ
  dietary_fiber_g : ℚ
  sugar_g : ℚ
  protein_g : ℚ
  tags : List String
deriving DecidableEq, Repr

/-- Line 537: `f"chipotle,{item['item_name'].lower()},{','.join(item['tags']).lower()}"`. -/
def chipotleSearchTerms (it : ChipotleItem) : String :=
  ⟨"chipotle,".data ++ lowerChars it.item_name.data ++ ",".data ++
    lowerChars (joinWith ",".data (it.tags.map (·.data)))⟩

/-- Line 540: `SELECT name FROM foods WHERE name = ? AND restaurant_name = 'Chipotle'`. -/
def chipotleMatches (it : ChipotleItem) (r : DBRow) : Bool :=
  decide (getCol r "name" = some (Val.str it.item_name)) &&
    decide (getCol r "restaurant_name" = some (Val.str "Chipotle"))

/-- The `UPDATE foods SET ...` of lines 545-569: the fixed column list the
importer overwrites, in statement order, ending with `updated_at`. -/
def chipotleUpdateRow (ts : String) (it : ChipotleItem) (r : DBRow) : DBRow :=
  let f := r.fields
  let f := aset f "serving_size" (Val.str it.portion)
  let f := aset f "serving_size_grams" (Val.num (convert_portion_to_grams it.portion))
  let f := aset f "calories" (Val.num it.calories)
  let f := aset f "calories_from_fat" (Val.num it.calories_from_fat)
  let f := aset f "total_fat_g" (Val.num it.total_fat_g)
  let f := aset f "saturated_fat_g" (Val.num it.saturated_fat_g)
  let f := aset f "trans_fat_g" (Val.num it.trans_fat_g)
  let f := aset f "cholesterol_mg" (Val.num it.cholesterol_mg)
  let f := aset f "sodium_mg" (Val.num it.sodium_mg)
  let f := aset f "total_carbohydrate_g" (Val.num it.carbohydrates_g)
  let f := aset f "dietary_fiber_g" (Val.num it.dietary_fiber_g)
  let f := aset f "sugars_g" (Val.num it.sugar_g)
  let f := aset f "protein_g" (Val.num it.protein_g)
  let f := aset f "search_terms" (Val.str (chipotleSearchTerms it))
  let f := aset f "updated_at" (Val.str ts)
  ⟨r.id, f⟩

/-- The `INSERT INTO foods (...)` of lines 575-589, columns in statement
order; `created_at = updated_at = current_timestamp`. -/
def chipotleInsertRow (ts : String) (it : ChipotleItem) (nid : Nat) : DBRow :=
  ⟨nid, [
    ("name", Val.str it.item_name),
    ("restaurant_name", Val.str "Chipotle"),
    ("serving_size", Val.str it.portion),
    ("serving_size_grams", Val.num (convert_portion_to_grams it.portion)),
    ("calories", Val.num it.calories),
    ("calories_from_fat", Val.num it.calories_from_fat),
    ("total_fat_g", Val.num it.total_fat_g),
    ("saturated_fat_g", Val.num it.saturated_fat_g),
    ("trans_fat_g", Val.num it.trans_fat_g),
    ("cholesterol_mg", Val.num it.cholesterol_mg),
    ("sodium_mg", Val.num it.sodium_mg),
    ("total_carbohydrate_g", Val.num it.carbohydrates_g),
    ("dietary_fiber_g", Val.num it.dietary_fiber_g),
    ("sugars_g", Val.num it.sugar_g),
    ("protein_g", Val.num it.protein_g),
    ("data_source", Val.str "Restaurant"),
    ("category", Val.str "Mexican"),
    ("search_terms", Val.str (chipotleSearchTerms it)),
    ("created_at", Val.str ts),
    ("updated_at", Val.str ts)]⟩

/-- One loop iteration of `add_chipotle_data.add_chipotle_to_database`
(lines 531-595) on the (table, next rowid) state: check-then-update upsert.
`ts` is the batch's `current_timestamp` (line 526).  The UPDATE's WHERE
clause hits every matching row. -/
def addChipotleItem (ts : String) (it : ChipotleItem) (st : List DBRow × Nat) :
    List DBRow × Nat :=
  if st.1.any (chipotleMatches it) then
    (st.1.map (fun r => if chipotleMatches it r then chipotleUpdateRow ts it r else r),
     st.2)
  else
    (st.1 ++ [chipotleInsertRow ts it st.2], st.2 + 1)

/-! ## `import_additional_restaurants.insert_food` (lines 13-49)

A candidate is a Python `**kwargs` dict: an association list from column
name to `Option Val`, where `some none`-style explicit `None` values are
modelled as a `none` value (they are dropped before the INSERT). -/

/-- The body of `insert_food` once the name string `nm` (Python's
`kwargs.get('name', '')` with absent-key default `''`) is known:
set `restaurant_name` and `data_source`, build `search_terms`, drop `None`
values, and run `INSERT OR REPLACE INTO foods`, swallowing any sqlite error
(line 48's `except`, which logs and falls through). -/
def insertFoodCore (restaurant : String) (kwargs : List (String × Option Val))
    (nm : String) (tbl : List DBRow) (nextId : Nat) : List DBRow :=
  let kwargs := aset kwargs "restaurant_name" (some (Val.str restaurant))
  let kwargs := aset kwargs "data_source" (some (Val.str "Restaurant Menu Data"))
  let tokens :=
    if nm.data ≠ [] then pySplitChars (lowerChars nm.data) else []
  let searchList := tokens ++ [lowerChars restaurant.data] ++
    (if ["pho", "banh mi", "bun", "com"].any
        (fun t => chContains (lowerChars nm.data) t.data) then
      ["vietnamese".data, "asian".data]
    else [])
  let searchTerms : String := ⟨joinWith " ".data (dedupKeepFirst searchList)⟩
  let kwargs := aset kwargs "search_terms" (some (Val.str searchTerms))
  let fields := kwargs.filterMap (fun p => p.2.map (fun v => (p.1, v)))
  if fields.isEmpty then tbl
  else
    match insertOrReplace foodsSpec tbl nextId fields with
    | some t => t
    | none => tbl

/-- `import_additional_restaurants.insert_food`.  Result `none` models an
uncaught Python exception (line 25 calls `.lower()` on
`kwargs.get('name', '')`, which raises `AttributeError` when the dict holds
an explicit `None` or a number under `'name'`); `some tbl'` is a normal
return, with `tbl' = tbl` when the INSERT raised and was logged. -/
def insert_food (restaurant : String) (kwargs : List (String × Option Val))
    (tbl : List DBRow) (nextId : Nat) : Option (List DBRow) :=
  match alookup kwargs "name" with
  | some none => none
  | some (some (Val.num _)) => none
  | some (some (Val.str s)) => some (insertFoodCore restaurant kwargs s tbl nextId)
  | none => some (insertFoodCore restaurant kwargs "" tbl nextId)

/-- The import loop of `import_additional_restaurants.main` (lines 58-62):
feed each (restaurant, item) candidate to `insert_food` in order; an
uncaught exception aborts the whole batch. -/
def insertFoodBatch : List (String × List (String × Option Val)) →
    List DBRow → Nat → Option (List DBRow)
  | [], tbl, _ => some tbl
  | (r, kw) :: rest, tbl, n =>
    match insert_food r kw tbl n with
    | none => none
    | some t => insertFoodBatch rest t (n + 1)

/-! ## The OpenFoodFacts importer (`import_openfoodfacts.py`) -/

/-- The slice of an OpenFoodFacts product JSON the importer reads
(lines 136-145).  `none` models an absent key (the `.get` defaults apply);
`nutriments` maps OFF nutriment keys to numbers. -/
structure OFFProduct where
  product_name : Option String
  brands : Option String
  code : Option String
  serving_size : Option String
  nutriments : List (String × ℚ)
deriving Repr

/-- Lookup in the `nutriments` dict, as `Option Val` for the record map. -/
def offNutr (p : OFFProduct) (k : String) : Option Val :=
  ((p.nutriments.find? (fun q => q.1 = k)).map (·.2)).map Val.num

/-- The `food_data` mapping of `_import_product` (lines 148-194), in source
order.  Empty-string `brands`/`code`/`serving_size` become `None`. -/
def offFoodData (p : OFFProduct) (category : Option String) (name brands : String) :
    List (String × Option Val) := [
  ("name", some (Val.str name)),
  ("brand_name", if brands.data ≠ [] then some (Val.str brands) else none),
  ("barcode", if (p.code.getD "").data ≠ [] then some (Val.str (p.code.getD "")) else none),
  ("serving_size", if (p.serving_size.getD "").data ≠ [] then
      some (Val.str (p.serving_size.getD "")) else none),
  ("category", category.map Val.str),
  ("data_source", some (Val.str "OpenFoodFacts")),
  ("calories", offNutr p "energy-kcal_100g"),
  ("total_fat_g", offNutr p "fat_100g"),
  ("saturated_fat_g", offNutr p "saturated-fat_100g"),
  ("trans_fat_g", offNutr p "trans-fat_100g"),
  ("cholesterol_mg", offNutr p "cholesterol_100g"),
  ("sodium_mg", offNutr p "sodium_100g"),
  ("total_carbohydrate_g", offNutr p "carbohydrates_100g"),
  ("dietary_fiber_g", offNutr p "fiber_100g"),
  ("sugars_g", offNutr p "sugars_100g"),
  ("protein_g", offNutr p "proteins_100g"),
  ("vitamin_a_mcg_rae", offNutr p "vitamin-a_100g"),
  ("vitamin_c_mg", offNutr p "vitamin-c_100g"),
  ("vitamin_d_mcg", offNutr p "vitamin-d_100g"),
  ("vitamin_e_mg", offNutr p "vitamin-e_100g"),
  ("vitamin_k_mcg", offNutr p "vitamin-k_100g"),
  ("thiamin_mg", offNutr p "vitamin-b1_100g"),
  ("riboflavin_mg", offNutr p "vitamin-b2_100g"),
  ("niacin_mg", offNutr p "vitamin-pp_100g"),
  ("vitamin_b6_mg", offNutr p "vitamin-b6_100g"),
  ("folate_mcg", offNutr p "vitamin-b9_100g"),
  ("vitamin_b12_mcg", offNutr p "vitamin-b12_100g"),
  ("calcium_mg", offNutr p "calcium_100g"),
  ("iron_mg", offNutr p "iron_100g"),
  ("magnesium_mg", offNutr p "magnesium_100g"),
  ("phosphorus_mg", offNutr p "phosphorus_100g"),
  ("potassium_mg", offNutr p "potassium_100g"),
  ("zinc_mg", offNutr p "zinc_100g"),
  ("caffeine_mg", offNutr p "caffeine_100g"),
  ("alcohol_g", offNutr p "alcohol_100g")]

/-- `OpenFoodFactsImporter._insert_food` (lines 209-239): add `search_terms`
from name and brand tokens, drop `None` values, `INSERT OR REPLACE` into
`foods` with the error swallowed. -/
def offInsertFood (kwargs : List (String × Option Val)) (tbl : List DBRow)
    (nextId : Nat) : List DBRow :=
  let nm : List Char := match alookup kwargs "name" with
    | some (some (Val.str s)) => s.data
    | _ => []
  let br : List Char := match alookup kwargs "brand_name" with
    | some (some (Val.str s)) => s.data
    | _ => []
  let searchList := (if nm ≠ [] then pySplitChars (lowerChars nm) else []) ++
    (if br ≠ [] then pySplitChars (lowerChars br) else [])
  let searchTerms : String := ⟨joinWith " ".data (dedupKeepFirst searchList)⟩
  let kwargs := aset kwargs "search_terms" (some (Val.str searchTerms))
  let fields := kwargs.filterMap (fun p => p.2.map (fun v => (p.1, v)))
  if fields.isEmpty then tbl
  else
    match insertOrReplace foodsSpec tbl nextId fields with
    | some t => t
    | none => tbl

/-- `OpenFoodFactsImporter._import_product` (lines 132-207): strip the name,
reject a falsy one, build `food_data`, drop `None`s, and import only when
`calories` or `protein_g` survived.  Returns Python's `bool` and the table. -/
def importProduct (p : OFFProduct) (category : Option String)
    (tbl : List DBRow) (nextId : Nat) : Bool × List DBRow :=
  let name : String := ⟨pyStrip (p.product_name.getD "").data⟩
  if name.data = [] then (false, tbl)
  else
    let brands : String := ⟨pyStrip (p.brands.getD "").data⟩
    let fd := (offFoodData p category name brands).filterMap
      (fun q => q.2.map (fun v => (q.1, v)))
    if (alookup fd "calories").isSome || (alookup fd "protein_g").isSome then
      (true, offInsertFood (fd.map (fun q => (q.1, some q.2))) tbl nextId)
    else
      (false, tbl)



/-! ## Concrete fixtures used by witnesses and counterexamples -/

/-- A candidate with a full identity tuple, as `insert_food` kwargs. -/
def c1kw : List (String × Option Val) :=
  [("name", some (Val.str "Banana")), ("brand_name", some (Val.str "Dole"))]

/-- The `foods` store after importing `c1kw` twice through `insert_food`. -/
def c1Table : List DBRow :=
  ((insert_food "TestMart" c1kw [] 1).bind (fun t => insert_food "TestMart" c1kw t 2)).getD []

def c2kwA : List (String × Option Val) :=
  [("name", some (Val.str "Taco")), ("calories", some (Val.num 100))]

def c2kwB : List (String × Option Val) :=
  [("name", some (Val.str "Taco")), ("protein_g", some (Val.num 5))]

/-- The `foods` store after upserting record A then record B (same identity
tuple) through `insert_food`. -/
def c2Table : List DBRow :=
  ((insert_food "Chipotle" c2kwA [] 1).bind (fun t => insert_food "Chipotle" c2kwB t 2)).getD []

/-- The `foods` store after inserting a record whose `calories` kwarg is an
explicit Python `None`. -/
def c2KaleTable : List DBRow :=
  (insert_food "Veggie Hut" [("name", some (Val.str "Kale")), ("calories", none)] [] 1).getD []

def c3kw : List (String × Option Val) :=
  [("name", some (Val.str "Pho Tai")), ("calories", some (Val.num 380))]

/-- The `foods` store after importing the identical candidate `c3kw` twice. -/
def c3Table : List DBRow :=
  ((insert_food "Pho 24" c3kw [] 1).bind (fun t => insert_food "Pho 24" c3kw t 2)).getD []

/-- An existing `nutrients` row: Banana / Dole / Shop / manual. -/
def c1NutrRow : DBRow :=
  ⟨1, [("food_name", Val.str "Banana"), ("brand_name", Val.str "Dole"),
       ("restaurant_name", Val.str "Shop"), ("source", Val.str "manual"),
       ("kcal_per_100g", Val.num 89)]⟩

/-- A re-import of the same identity tuple with updated calories. -/
def c1NutrFields : List (String × Val) :=
  [("food_name", Val.str "Banana"), ("brand_name", Val.str "Dole"),
   ("restaurant_name", Val.str "Shop"), ("source", Val.str "manual"),
   ("kcal_per_100g", Val.num 95)]

/-- A candidate whose name is the empty string, and the store after feeding
it to `insert_food`. -/
def c8kw : List (String × Option Val) := [("name", some (Val.str ""))]

def c8Table : List DBRow := (insert_food "KFC" c8kw [] 1).getD []

/-- `CHIPOTLE_DATA[2]` (`add_chipotle_data.py` lines 48-62). -/
def chipotleCrispyCornTortilla : ChipotleItem :=
  ⟨"Crispy Corn Tortilla", "1 ea", 70, 25, 3, 0, 0, 0, 0, 10, 1, 0, 2, ["Chipotle"]⟩

/-- A re-import of the same Chipotle item name with different calories and
one fewer field left unchanged. -/
def chipotleCrispyCornTortillaV2 : ChipotleItem :=
  ⟨"Crispy Corn Tortilla", "1 ea", 75, 25, 3, 0, 0, 0, 5, 10, 1, 0, 2, ["Chipotle"]⟩


end GemYum

namespace GemYum

/-! ## Generic lemmas about the model -/

theorem alookup_aset {β : Type} (fs : List (String × β)) (k c : String) (v : β) :
    alookup (aset fs k v) c = if c = k then some v else alookup fs c := by
  induction fs with
  | nil =>
    by_cases h : c = k
    · simp only [aset, alookup, if_pos h.symm, if_pos h]
    · simp only [aset, alookup, if_neg (fun h' : k = c => h h'.symm), if_neg h]
  | cons p rest ih =>
    obtain ⟨k', v'⟩ := p
    by_cases h1 : k' = k
    · by_cases h2 : c = k
      · simp only [aset, if_pos h1, alookup, if_pos h2.symm, if_pos h2]
      · have hkc : ¬ k = c := fun h => h2 h.symm
        have hk'c : ¬ k' = c := fun h => h2 (h.symm.trans h1)
        simp only [aset, if_pos h1, alookup, if_neg hkc, if_neg h2, if_neg hk'c]
    · by_cases h2 : c = k'
      · have hck : ¬ c = k := fun h => h1 (h2.symm.trans h)
        simp only [aset, if_neg h1, alookup, if_pos h2.symm, if_neg hck]
      · have hk'c : ¬ k' = c := fun h => h2 h.symm
        simp only [aset, if_neg h1, alookup, if_neg hk'c, ih]

/-- Dropping the `None`-valued kwargs cannot make an absent key appear. -/
theorem alookup_filterMap_none (kwargs : List (String × Option Val)) (c : String)
    (h : alookup kwargs c = none) :
    alookup (kwargs.filterMap (fun p => p.2.map (fun v => (p.1, v)))) c = none := by
  induction kwargs with
  | nil => rfl
  | cons p rest ih =>
    obtain ⟨k, v?⟩ := p
    by_cases hk : k = c
    · simp [alookup, hk] at h
    · cases v? with
      | none =>
        simp only [alookup, if_neg hk] at h
        simpa [List.filterMap_cons] using ih h
      | some v =>
        simp only [alookup, if_neg hk] at h
        simpa [List.filterMap_cons, alookup, hk] using ih h

end GemYum

namespace GemYum

/-! ## Claims about the glycemic-index estimator and load calculator -/

/-- C4: `find_gi_for_food` applies its stages in the fixed order
exact match, token match, substring scan, category fallback — witnessed by
the claim's two examples and by inputs where consecutive stages disagree
(so the earlier stage observably wins): `"instant mashed potato"` gets its
exact value 87 although the token stage would give 85 (`"potato"`);
`"cheese potato soup"` gets the token value 0 (`"cheese"`) although the
substring stage would give 85; `"oatmealcookie"` gets the substring value 55
(`"oatmeal"`) although the fallback chain would give 77 (`'cookie'`). -/
theorem C4_gi_cascade :
    find_gi_for_food "Taco" = some 52 ∧
    find_gi_for_food "Brown Rice Bowl" = some 68 ∧
    (find_gi_for_food "instant mashed potato" = some 87 ∧
      tokenMatch GLYCEMIC_INDEX_MAP (lowerChars "instant mashed potato".data) = some 85) ∧
    (find_gi_for_food "cheese potato soup" = some 0 ∧
      substrMatch GLYCEMIC_INDEX_MAP (lowerChars "cheese potato soup".data) = some 85) ∧
    (find_gi_for_food "oatmealcookie" = some 55 ∧
      fallbackRules (lowerChars "oatmealcookie".data) = some 77) := by
  refine ⟨by decide, by decide, ⟨by decide, by decide⟩, ⟨by decide, by decide⟩,
    ⟨by decide, by decide⟩⟩

theorem ratFloor_intFloor (q : ℚ) : q.floor = ⌊q⌋ :=
  (Rat.floor_def' q).trans Rat.floor_def.symm

theorem roundHalfEven_intCast (n : ℤ) : roundHalfEven (n : ℚ) = n := by
  simp only [roundHalfEven, ratFloor_intFloor, Int.floor_intCast]
  norm_num

/-- C5: `calculate_glycemic_load` returns `round(gi * carbs / 100, 1)` when
both inputs are present and `None` when either is absent; in particular
`calculate_gl(66, 45) = 29.7` and `calculate_gl(None, 45) = None`. -/
theorem C5_calculate_gl_contract :
    (∀ gi c : ℚ, calculate_glycemic_load (some gi) (some c) =
      some (pyRound1 (gi * c / 100))) ∧
    (∀ c : Option ℚ, calculate_glycemic_load none c = none) ∧
    (∀ gi : Option ℚ, calculate_glycemic_load gi none = none) ∧
    calculate_glycemic_load (some 66) (some 45) = some (297 / 10) ∧
    calculate_glycemic_load none (some 45) = none := by
  refine ⟨fun gi c => rfl, fun c => ?_, fun gi => ?_, ?_, rfl⟩
  · cases c <;> rfl
  · cases gi <;> rfl
  · have h1 : (66 : ℚ) * 45 / 100 = ((297 : ℤ) : ℚ) / 10 := by norm_num
    have h2 : (10 : ℚ) * (((297 : ℤ) : ℚ) / 10) = ((297 : ℤ) : ℚ) := by norm_num
    simp only [calculate_glycemic_load, pyRound1, h1, h2, roundHalfEven_intCast]
    norm_num

/-- C6 counterexample: for glycemic index 66 and carbs −10 the code returns
`round(66 * (−10) / 100, 1) = −6.6`, not the claimed load 0. -/
theorem C6_counterexample :
    calculate_glycemic_load (some 66) (some (-10)) ≠ some 0 := by
  have h1 : (66 : ℚ) * (-10) / 100 = ((-66 : ℤ) : ℚ) / 10 := by norm_num
  have h2 : (10 : ℚ) * (((-66 : ℤ) : ℚ) / 10) = ((-66 : ℤ) : ℚ) := by norm_num
  simp only [calculate_glycemic_load, pyRound1, h1, h2, roundHalfEven_intCast]
  norm_num

theorem roundHalfEven_nonpos {q : ℚ} (h : q ≤ 0) : roundHalfEven q ≤ 0 := by
  have hb : q.floor = ⌊q⌋ := by rw [Rat.floor_def, Rat.floor_def']
  have hf : (⌊q⌋ : ℚ) ≤ q := Int.floor_le q
  have hf0 : ⌊q⌋ ≤ 0 := Int.floor_nonpos h
  simp only [roundHalfEven, hb]
  split_ifs with h1 h2 h3
  · exact hf0
  · have hlt : (⌊q⌋ : ℚ) < -(1/2) := by linarith
    have : ⌊q⌋ < 0 := by
      by_contra hc
      push_neg at hc
      have : (0 : ℚ) ≤ (⌊q⌋ : ℚ) := by exact_mod_cast hc
      linarith
    omega
  · exact hf0
  · have heq : (⌊q⌋ : ℚ) = q - 1/2 := by linarith
    have hle : (⌊q⌋ : ℚ) ≤ -(1/2) := by linarith
    have : ⌊q⌋ < 0 := by
      by_contra hc
      push_neg at hc
      have : (0 : ℚ) ≤ (⌊q⌋ : ℚ) := by exact_mod_cast hc
      linarith
    omega

/-- C6 amended: zero carbs yield load 0 and no error; negative carbs also
raise no error but yield the (nonpositive, possibly negative) rounded
product rather than 0. -/
theorem C6_amended :
    (∀ gi : ℚ, calculate_glycemic_load (some gi) (some 0) = some 0) ∧
    (∀ gi c : ℚ, 0 ≤ gi → c ≤ 0 →
      ∃ v, calculate_glycemic_load (some gi) (some c) = some v ∧ v ≤ 0) := by
  constructor
  · intro gi
    have h1 : gi * 0 / 100 = ((0 : ℤ) : ℚ) := by norm_num
    have h2 : (10 : ℚ) * ((0 : ℤ) : ℚ) = ((0 : ℤ) : ℚ) := by norm_num
    simp only [calculate_glycemic_load, pyRound1, h1, h2, roundHalfEven_intCast]
    norm_num
  · intro gi c hgi hc
    refine ⟨pyRound1 (gi * c / 100), rfl, ?_⟩
    have hq : gi * c / 100 ≤ 0 := by
      have := mul_nonpos_of_nonneg_of_nonpos hgi hc
      linarith
    have h10 : (10 : ℚ) * (gi * c / 100) ≤ 0 := by linarith
    have := roundHalfEven_nonpos h10
    have hcast : ((roundHalfEven (10 * (gi * c / 100)) : ℤ) : ℚ) ≤ 0 := by
      exact_mod_cast this
    simp only [pyRound1]
    linarith

/-- C6 amended, witnessed at gi = 66: zero carbs give load 0, and carbs −10
give a nonpositive load without an error. -/
theorem C6_amended_witness :
    calculate_glycemic_load (some 66) (some 0) = some 0 ∧
    ∃ v, calculate_glycemic_load (some 66) (some (-10)) = some v ∧ v ≤ 0 :=
  ⟨C6_amended.1 66, C6_amended.2 66 (-10) (by norm_num) (by norm_num)⟩

/-- C7 counterexample: estimating "Frosted Flakes" does not return 74. -/
theorem C7_counterexample : find_gi_for_food "Frosted Flakes" ≠ some 74 := by
  decide

/-- C7 amended: estimating "Frosted Flakes" returns no value at all — the
reference table has no key matching it exactly, by token or by substring,
and no category fallback rule fires. -/
theorem C7_amended :
    find_gi_for_food "Frosted Flakes" = none ∧
    directMatch GLYCEMIC_INDEX_MAP (lowerChars "Frosted Flakes".data) = none ∧
    tokenMatch GLYCEMIC_INDEX_MAP (lowerChars "Frosted Flakes".data) = none ∧
    substrMatch GLYCEMIC_INDEX_MAP (lowerChars "Frosted Flakes".data) = none ∧
    fallbackRules (lowerChars "Frosted Flakes".data) = none := by
  refine ⟨by decide, by decide, by decide, by decide, by decide⟩

/-- C9: the estimator is a pure function of its input string — repeated
calls agree — and this determinism really does depend on the stage-3 scan
order being fixed: scanning the same reference entries in reversed order
changes the answer on "cheeseburgers" (0 via the earlier key "cheese"
versus 66 via "cheeseburger"), so the fixed dict iteration order is
load-bearing. -/
theorem C9_deterministic :
    (∀ s t : String, s = t → find_gi_for_food s = find_gi_for_food t) ∧
    find_gi_core GLYCEMIC_INDEX_MAP.reverse "cheeseburgers" ≠
      find_gi_core GLYCEMIC_INDEX_MAP "cheeseburgers" := by
  constructor
  · intro s t h
    rw [h]
  · decide

/-- C9 witnessed at a concrete input. -/
theorem C9_deterministic_witness :
    find_gi_for_food "Grilled Chicken Salad" = find_gi_for_food "Grilled Chicken Salad" :=
  C9_deterministic.1 "Grilled Chicken Salad" "Grilled Chicken Salad" rfl

/-- C10: the Chipotle unit-conversion helpers are total:
`convert_portion_to_grams` falls back to 100.0 g whenever the normalized
portion string is not a key of its conversion table, and
`convert_to_per_100g` returns 0 for a zero serving size instead of dividing
by zero. -/
theorem C10_conversion_total :
    (∀ s : String,
      chipotleConversions.find? (fun p => p.1.data = pyStrip (lowerChars s.data)) = none →
      convert_portion_to_grams s = 100) ∧
    (∀ v : ℚ, convert_to_per_100g v 0 = 0) := by
  constructor
  · intro s h
    simp [convert_portion_to_grams, h]
  · intro v
    simp [convert_to_per_100g]

/-- C10 witnessed at "5 oz" (absent from the conversion table) and at a
zero serving size. -/
theorem C10_conversion_total_witness :
    convert_portion_to_grams "5 oz" = 100 ∧ convert_to_per_100g 7 0 = 0 :=
  ⟨C10_conversion_total.1 "5 oz" (by decide), C10_conversion_total.2 7⟩

end GemYum

namespace GemYum

/-! ## Claims about the record store and upsert -/

/-- C1 counterexample: feeding the same fully-identified candidate
(name "Banana", brand "Dole", restaurant "TestMart", source
"Restaurant Menu Data") twice to `insert_food` leaves the `foods` store
with TWO rows carrying the same identity tuple — the re-import appended a
duplicate instead of overwriting, because the `foods` schema declares no
UNIQUE constraint for `INSERT OR REPLACE` to act on. -/
theorem C1_counterexample :
    c1Table.length = 2 ∧
    sqlEqOn foodsIdCols (c1Table.getD 0 ⟨0, []⟩) (c1Table.getD 1 ⟨0, []⟩) = true := by
  refine ⟨by decide, by decide⟩

/-- C1 amended: the uniqueness/overwrite invariant does hold for the
`nutrients` table of `build_comprehensive_nutrients_db.py`, whose DDL has
`UNIQUE(food_name, brand_name, restaurant_name, source)`, under SQL's
notion of tuple equality (NULL components never compare equal): any insert
into a store with no SQL-duplicate identity tuples preserves that
invariant, stores the new row, and drops exactly the rows it conflicts
with (last-write-wins).  In the `foods` table of
`build_ultimate_nutrients_db.py` the invariant fails (see the
counterexample): that schema has no UNIQUE constraint, so `INSERT OR
REPLACE` never replaces. -/
theorem C1_amended (tbl : List DBRow) (n : Nat) (fields : List (String × Val))
    (result : List DBRow)
    (hinv : tbl.Pairwise (fun a b => sqlEqOn nutrIdCols a b = false))
    (hins : insertOrReplace nutrientsSpec tbl n fields = some result) :
    result.Pairwise (fun a b => sqlEqOn nutrIdCols a b = false) ∧
    (⟨n, fields⟩ : DBRow) ∈ result ∧
    result.length = (tbl.filter (fun r => !(sqlEqOn nutrIdCols r ⟨n, fields⟩))).length + 1 := by
  rw [insertOrReplace] at hins
  split at hins
  case isFalse => exact absurd hins (by simp)
  case isTrue hnn =>
    rw [Option.some_inj] at hins
    subst hins
    refine ⟨?_, ?_, ?_⟩
    · rw [List.pairwise_append]
      refine ⟨hinv.filter _, List.pairwise_singleton _ _, ?_⟩
      intro a ha b hb
      rw [List.mem_singleton] at hb
      subst hb
      have hmem := List.of_mem_filter ha
      simp only [nutrientsSpec, List.any_cons, List.any_nil, Bool.or_false,
        Bool.not_eq_true'] at hmem
      exact hmem
    · exact List.mem_append_right _ (List.mem_singleton_self _)
    · rw [List.length_append]
      simp only [nutrientsSpec, List.any_cons, List.any_nil, Bool.or_false,
        List.length_singleton]

/-- C1 amended, witnessed: re-importing the Banana/Dole/Shop/manual tuple
with updated calories replaces the single existing row. -/
theorem C1_amended_witness :
    ([⟨2, c1NutrFields⟩] : List DBRow).Pairwise (fun a b => sqlEqOn nutrIdCols a b = false) ∧
    (⟨2, c1NutrFields⟩ : DBRow) ∈ ([⟨2, c1NutrFields⟩] : List DBRow) ∧
    ([⟨2, c1NutrFields⟩] : List DBRow).length =
      (([c1NutrRow]).filter (fun r => !(sqlEqOn nutrIdCols r ⟨2, c1NutrFields⟩))).length + 1 :=
  C1_amended [c1NutrRow] 2 c1NutrFields [⟨2, c1NutrFields⟩]
    (by simp) (by decide)

end GemYum

namespace GemYum

/-- A candidate whose kwargs have no `'name'` key is rejected by the
`name TEXT NOT NULL` constraint: the caught `IntegrityError` leaves the
store unchanged. -/
theorem insert_food_missing_name (restaurant : String)
    (kwargs : List (String × Option Val)) (tbl : List DBRow) (n : Nat)
    (h : alookup kwargs "name" = none) :
    insert_food restaurant kwargs tbl n = some tbl := by
  simp only [insert_food, h]
  simp [insertFoodCore, insertOrReplace, foodsSpec, alookup_filterMap_none,
    alookup_aset, h]

/-- C8 counterexample: a candidate whose name is the EMPTY STRING is not
rejected by `insert_food` — a row with an empty name is inserted. -/
theorem C8_counterexample :
    c8Table.length = 1 ∧ getCol (c8Table.getD 0 ⟨0, []⟩) "name" = some (Val.str "") := by
  refine ⟨by decide, by decide⟩

/-- C8 amended: a candidate with a MISSING name is indeed rejected without
a row and without aborting the batch — `insert_food` swallows the NOT NULL
violation and the import loop moves on to the next candidate — and the
OpenFoodFacts importer rejects both empty and missing `product_name`
before any insert; but `insert_food` does insert a row when the name is
present and empty (see the counterexample). -/
theorem C8_amended :
    (∀ (restaurant : String) (kwargs : List (String × Option Val))
      (tbl : List DBRow) (n : Nat),
      alookup kwargs "name" = none →
      insert_food restaurant kwargs tbl n = some tbl) ∧
    (∀ (restaurant : String) (kwargs : List (String × Option Val))
      (rest : List (String × List (String × Option Val)))
      (tbl : List DBRow) (n : Nat),
      alookup kwargs "name" = none →
      insertFoodBatch ((restaurant, kwargs) :: rest) tbl n =
        insertFoodBatch rest tbl (n + 1)) ∧
    (∀ (p : OFFProduct) (category : Option String) (tbl : List DBRow) (n : Nat),
      pyStrip (p.product_name.getD "").data = [] →
      importProduct p category tbl n = (false, tbl)) := by
  refine ⟨insert_food_missing_name, ?_, ?_⟩
  · intro restaurant kwargs rest tbl n h
    simp only [insertFoodBatch, insert_food_missing_name restaurant kwargs tbl n h]
  · intro p category tbl n h
    simp only [importProduct, h]
    rfl

/-- C8 amended, witnessed: a nameless candidate leaves the store unchanged,
the batch continues, and the OpenFoodFacts importer rejects a whitespace
name. -/
theorem C8_amended_witness :
    insert_food "KFC" [("calories", some (Val.num 100))] [] 5 = some [] ∧
    insertFoodBatch [("KFC", [("calories", some (Val.num 100))]),
      ("KFC", c8kw)] [] 5 = insertFoodBatch [("KFC", c8kw)] [] 6 ∧
    importProduct ⟨some "  ", none, none, none, []⟩ none [] 0 = (false, []) :=
  ⟨C8_amended.1 "KFC" [("calories", some (Val.num 100))] [] 5 (by decide),
   C8_amended.2.1 "KFC" [("calories", some (Val.num 100))] [("KFC", c8kw)] [] 5 (by decide),
   C8_amended.2.2 ⟨some "  ", none, none, none, []⟩ none [] 0 (by decide)⟩

end GemYum

namespace GemYum

/-! ## Lemmas on the Chipotle check-then-update upsert -/

theorem getCol_chipotleUpdateRow (ts : String) (it : ChipotleItem) (r : DBRow)
    (c : String) :
    getCol (chipotleUpdateRow ts it r) c =
      if c = "updated_at" then some (Val.str ts)
      else if c = "search_terms" then some (Val.str (chipotleSearchTerms it))
      else if c = "protein_g" then some (Val.num it.protein_g)
      else if c = "sugars_g" then some (Val.num it.sugar_g)
      else if c = "dietary_fiber_g" then some (Val.num it.dietary_fiber_g)
      else if c = "total_carbohydrate_g" then some (Val.num it.carbohydrates_g)
      else if c = "sodium_mg" then some (Val.num it.sodium_mg)
      else if c = "cholesterol_mg" then some (Val.num it.cholesterol_mg)
      else if c = "trans_fat_g" then some (Val.num it.trans_fat_g)
      else if c = "saturated_fat_g" then some (Val.num it.saturated_fat_g)
      else if c = "total_fat_g" then some (Val.num it.total_fat_g)
      else if c = "calories_from_fat" then some (Val.num it.calories_from_fat)
      else if c = "calories" then some (Val.num it.calories)
      else if c = "serving_size_grams" then
        some (Val.num (convert_portion_to_grams it.portion))
      else if c = "serving_size" then some (Val.str it.portion)
      else getCol r c := by
  unfold chipotleUpdateRow
  simp only [getCol]
  rw [alookup_aset, alookup_aset, alookup_aset, alookup_aset, alookup_aset,
    alookup_aset, alookup_aset, alookup_aset, alookup_aset, alookup_aset,
    alookup_aset, alookup_aset, alookup_aset, alookup_aset, alookup_aset]

theorem getCol_updateRow_name (ts : String) (it : ChipotleItem) (r : DBRow) :
    getCol (chipotleUpdateRow ts it r) "name" = getCol r "name" := by
  rw [getCol_chipotleUpdateRow]
  rw [if_neg (by decide : ¬("name" : String) = "updated_at")]
  rw [if_neg (by decide : ¬("name" : String) = "search_terms")]
  rw [if_neg (by decide : ¬("name" : String) = "protein_g")]
  rw [if_neg (by decide : ¬("name" : String) = "sugars_g")]
  rw [if_neg (by decide : ¬("name" : String) = "dietary_fiber_g")]
  rw [if_neg (by decide : ¬("name" : String) = "total_carbohydrate_g")]
  rw [if_neg (by decide : ¬("name" : String) = "sodium_mg")]
  rw [if_neg (by decide : ¬("name" : String) = "cholesterol_mg")]
  rw [if_neg (by decide : ¬("name" : String) = "trans_fat_g")]
  rw [if_neg (by decide : ¬("name" : String) = "saturated_fat_g")]
  rw [if_neg (by decide : ¬("name" : String) = "total_fat_g")]
  rw [if_neg (by decide : ¬("name" : String) = "calories_from_fat")]
  rw [if_neg (by decide : ¬("name" : String) = "calories")]
  rw [if_neg (by decide : ¬("name" : String) = "serving_size_grams")]
  rw [if_neg (by decide : ¬("name" : String) = "serving_size")]

/-! Column-by-column readings of the INSERT row of the Chipotle importer
(`add_chipotle_data.py` lines 575-589). -/

theorem getCol_insertRow_name (ts : String) (it : ChipotleItem) (nid : Nat) :
    getCol (chipotleInsertRow ts it nid) "name" = some (Val.str it.item_name) := by
  simp only [chipotleInsertRow, getCol, alookup]
  rw [if_pos trivial]

theorem getCol_insertRow_restaurant_name (ts : String) (it : ChipotleItem) (nid : Nat) :
    getCol (chipotleInsertRow ts it nid) "restaurant_name" = some (Val.str "Chipotle") := by
  simp only [chipotleInsertRow, getCol, alookup]
  rw [if_neg (by decide : ¬("name" : String) = "restaurant_name")]
  rw [if_pos trivial]

theorem getCol_insertRow_serving_size (ts : String) (it : ChipotleItem) (nid : Nat) :
    getCol (chipotleInsertRow ts it nid) "serving_size" = some (Val.str it.portion) := by
  simp only [chipotleInsertRow, getCol, alookup]
  rw [if_neg (by decide : ¬("name" : String) = "serving_size")]
  rw [if_neg (by decide : ¬("restaurant_name" : String) = "serving_size")]
  rw [if_pos trivial]

theorem getCol_insertRow_serving_size_grams (ts : String) (it : ChipotleItem) (nid : Nat) :
    getCol (chipotleInsertRow ts it nid) "serving_size_grams" = some (Val.num (convert_portion_to_grams it.portion)) := by
  simp only [chipotleInsertRow, getCol, alookup]
  rw [if_neg (by decide : ¬("name" : String) = "serving_size_grams")]
  rw [if_neg (by decide : ¬("restaurant_name" : String) = "serving_size_grams")]
  rw [if_neg (by decide : ¬("serving_size" : String) = "serving_size_grams")]
  rw [if_pos trivial]

theorem getCol_insertRow_calories (ts : String) (it : ChipotleItem) (nid : Nat) :
    getCol (chipotleInsertRow ts it nid) "calories" = some (Val.num it.calories) := by
  simp only [chipotleInsertRow, getCol, alookup]
  rw [if_neg (by decide : ¬("name" : String) = "calories")]
  rw [if_neg (by decide : ¬("restaurant_name" : String) = "calories")]
  rw [if_neg (by decide : ¬("serving_size" : String) = "calories")]
  rw [if_neg (by decide : ¬("serving_size_grams" : String) = "calories")]
  rw [if_pos trivial]

theorem getCol_insertRow_calories_from_fat (ts : String) (it : ChipotleItem) (nid : Nat) :
    getCol (chipotleInsertRow ts it nid) "calories_from_fat" = some (Val.num it.calories_from_fat) := by
  simp only [chipotleInsertRow, getCol, alookup]
  rw [if_neg (by decide : ¬("name" : String) = "calories_from_fat")]
  rw [if_neg (by decide : ¬("restaurant_name" : String) = "calories_from_fat")]
  rw [if_neg (by decide : ¬("serving_size" : String) = "calories_from_fat")]
  rw [if_neg (by decide : ¬("serving_size_grams" : String) = "calories_from_fat")]
  rw [if_neg (by decide : ¬("calories" : String) = "calories_from_fat")]
  rw [if_pos trivial]

theorem getCol_insertRow_total_fat_g (ts : String) (it : ChipotleItem) (nid : Nat) :
    getCol (chipotleInsertRow ts it nid) "total_fat_g" = some (Val.num it.total_fat_g) := by
  simp only [chipotleInsertRow, getCol, alookup]
  rw [if_neg (by decide : ¬("name" : String) = "total_fat_g")]
  rw [if_neg (by decide : ¬("restaurant_name" : String) = "total_fat_g")]
  rw [if_neg (by decide : ¬("serving_size" : String) = "total_fat_g")]
  rw [if_neg (by decide : ¬("serving_size_grams" : String) = "total_fat_g")]
  rw [if_neg (by decide : ¬("calories" : String) = "total_fat_g")]
  rw [if_neg (by decide : ¬("calories_from_fat" : String) = "total_fat_g")]
  rw [if_pos trivial]

theorem getCol_insertRow_saturated_fat_g (ts : String) (it : ChipotleItem) (nid : Nat) :
    getCol (chipotleInsertRow ts it nid) "saturated_fat_g" = some (Val.num it.saturated_fat_g) := by
  simp only [chipotleInsertRow, getCol, alookup]
  rw [if_neg (by decide : ¬("name" : String) = "saturated_fat_g")]
  rw [if_neg (by decide : ¬("restaurant_name" : String) = "saturated_fat_g")]
  rw [if_neg (by decide : ¬("serving_size" : String) = "saturated_fat_g")]
  rw [if_neg (by decide : ¬("serving_size_grams" : String) = "saturated_fat_g")]
  rw [if_neg (by decide : ¬("calories" : String) = "saturated_fat_g")]
  rw [if_neg (by decide : ¬("calories_from_fat" : String) = "saturated_fat_g")]
  rw [if_neg (by decide : ¬("total_fat_g" : String) = "saturated_fat_g")]
  rw [if_pos trivial]

theorem getCol_insertRow_trans_fat_g (ts : String) (it : ChipotleItem) (nid : Nat) :
    getCol (chipotleInsertRow ts it nid) "trans_fat_g" = some (Val.num it.trans_fat_g) := by
  simp only [chipotleInsertRow, getCol, alookup]
  rw [if_neg (by decide : ¬("name" : String) = "trans_fat_g")]
  rw [if_neg (by decide : ¬("restaurant_name" : String) = "trans_fat_g")]
  rw [if_neg (by decide : ¬("serving_size" : String) = "trans_fat_g")]
  rw [if_neg (by decide : ¬("serving_size_grams" : String) = "trans_fat_g")]
  rw [if_neg (by decide : ¬("calories" : String) = "trans_fat_g")]
  rw [if_neg (by decide : ¬("calories_from_fat" : String) = "trans_fat_g")]
  rw [if_neg (by decide : ¬("total_fat_g" : String) = "trans_fat_g")]
  rw [if_neg (by decide : ¬("saturated_fat_g" : String) = "trans_fat_g")]
  rw [if_pos trivial]

theorem getCol_insertRow_cholesterol_mg (ts : String) (it : ChipotleItem) (nid : Nat) :
    getCol (chipotleInsertRow ts it nid) "cholesterol_mg" = some (Val.num it.cholesterol_mg) := by
  simp only [chipotleInsertRow, getCol, alookup]
  rw [if_neg (by decide : ¬("name" : String) = "cholesterol_mg")]
  rw [if_neg (by decide : ¬("restaurant_name" : String) = "cholesterol_mg")]
  rw [if_neg (by decide : ¬("serving_size" : String) = "cholesterol_mg")]
  rw [if_neg (by decide : ¬("serving_size_grams" : String) = "cholesterol_mg")]
  rw [if_neg (by decide : ¬("calories" : String) = "cholesterol_mg")]
  rw [if_neg (by decide : ¬("calories_from_fat" : String) = "cholesterol_mg")]
  rw [if_neg (by decide : ¬("total_fat_g" : String) = "cholesterol_mg")]
  rw [if_neg (by decide : ¬("saturated_fat_g" : String) = "cholesterol_mg")]
  rw [if_neg (by decide : ¬("trans_fat_g" : String) = "cholesterol_mg")]
  rw [if_pos trivial]

theorem getCol_insertRow_sodium_mg (ts : String) (it : ChipotleItem) (nid : Nat) :
    getCol (chipotleInsertRow ts it nid) "sodium_mg" = some (Val.num it.sodium_mg) := by
  simp only [chipotleInsertRow, getCol, alookup]
  rw [if_neg (by decide : ¬("name" : String) = "sodium_mg")]
  rw [if_neg (by decide : ¬("restaurant_name" : String) = "sodium_mg")]
  rw [if_neg (by decide : ¬("serving_size" : String) = "sodium_mg")]
  rw [if_neg (by decide : ¬("serving_size_grams" : String) = "sodium_mg")]
  rw [if_neg (by decide : ¬("calories" : String) = "sodium_mg")]
  rw [if_neg (by decide : ¬("calories_from_fat" : String) = "sodium_mg")]
  rw [if_neg (by decide : ¬("total_fat_g" : String) = "sodium_mg")]
  rw [if_neg (by decide : ¬("saturated_fat_g" : String) = "sodium_mg")]
  rw [if_neg (by decide : ¬("trans_fat_g" : String) = "sodium_mg")]
  rw [if_neg (by decide : ¬("cholesterol_mg" : String) = "sodium_mg")]
  rw [if_pos trivial]

theorem getCol_insertRow_total_carbohydrate_g (ts : String) (it : ChipotleItem) (nid : Nat) :
    getCol (chipotleInsertRow ts it nid) "total_carbohydrate_g" = some (Val.num it.carbohydrates_g) := by
  simp only [chipotleInsertRow, getCol, alookup]
  rw [if_neg (by decide : ¬("name" : String) = "total_carbohydrate_g")]
  rw [if_neg (by decide : ¬("restaurant_name" : String) = "total_carbohydrate_g")]
  rw [if_neg (by decide : ¬("serving_size" : String) = "total_carbohydrate_g")]
  rw [if_neg (by decide : ¬("serving_size_grams" : String) = "total_carbohydrate_g")]
  rw [if_neg (by decide : ¬("calories" : String) = "total_carbohydrate_g")]
  rw [if_neg (by decide : ¬("calories_from_fat" : String) = "total_carbohydrate_g")]
  rw [if_neg (by decide : ¬("total_fat_g" : String) = "total_carbohydrate_g")]
  rw [if_neg (by decide : ¬("saturated_fat_g" : String) = "total_carbohydrate_g")]
  rw [if_neg (by decide : ¬("trans_fat_g" : String) = "total_carbohydrate_g")]
  rw [if_neg (by decide : ¬("cholesterol_mg" : String) = "total_carbohydrate_g")]
  rw [if_neg (by decide : ¬("sodium_mg" : String) = "total_carbohydrate_g")]
  rw [if_pos trivial]

theorem getCol_insertRow_dietary_fiber_g (ts : String) (it : ChipotleItem) (nid : Nat) :
    getCol (chipotleInsertRow ts it nid) "dietary_fiber_g" = some (Val.num it.dietary_fiber_g) := by
  simp only [chipotleInsertRow, getCol, alookup]
  rw [if_neg (by decide : ¬("name" : String) = "dietary_fiber_g")]
  rw [if_neg (by decide : ¬("restaurant_name" : String) = "dietary_fiber_g")]
  rw [if_neg (by decide : ¬("serving_size" : String) = "dietary_fiber_g")]
  rw [if_neg (by decide : ¬("serving_size_grams" : String) = "dietary_fiber_g")]
  rw [if_neg (by decide : ¬("calories" : String) = "dietary_fiber_g")]
  rw [if_neg (by decide : ¬("calories_from_fat" : String) = "dietary_fiber_g")]
  rw [if_neg (by decide : ¬("total_fat_g" : String) = "dietary_fiber_g")]
  rw [if_neg (by decide : ¬("saturated_fat_g" : String) = "dietary_fiber_g")]
  rw [if_neg (by decide : ¬("trans_fat_g" : String) = "dietary_fiber_g")]
  rw [if_neg (by decide : ¬("cholesterol_mg" : String) = "dietary_fiber_g")]
  rw [if_neg (by decide : ¬("sodium_mg" : String) = "dietary_fiber_g")]
  rw [if_neg (by decide : ¬("total_carbohydrate_g" : String) = "dietary_fiber_g")]
  rw [if_pos trivial]

theorem getCol_insertRow_sugars_g (ts : String) (it : ChipotleItem) (nid : Nat) :
    getCol (chipotleInsertRow ts it nid) "sugars_g" = some (Val.num it.sugar_g) := by
  simp only [chipotleInsertRow, getCol, alookup]
  rw [if_neg (by decide : ¬("name" : String) = "sugars_g")]
  rw [if_neg (by decide : ¬("restaurant_name" : String) = "sugars_g")]
  rw [if_neg (by decide : ¬("serving_size" : String) = "sugars_g")]
  rw [if_neg (by decide : ¬("serving_size_grams" : String) = "sugars_g")]
  rw [if_neg (by decide : ¬("calories" : String) = "sugars_g")]
  rw [if_neg (by decide : ¬("calories_from_fat" : String) = "sugars_g")]
  rw [if_neg (by decide : ¬("total_fat_g" : String) = "sugars_g")]
  rw [if_neg (by decide : ¬("saturated_fat_g" : String) = "sugars_g")]
  rw [if_neg (by decide : ¬("trans_fat_g" : String) = "sugars_g")]
  rw [if_neg (by decide : ¬("cholesterol_mg" : String) = "sugars_g")]
  rw [if_neg (by decide : ¬("sodium_mg" : String) = "sugars_g")]
  rw [if_neg (by decide : ¬("total_carbohydrate_g" : String) = "sugars_g")]
  rw [if_neg (by decide : ¬("dietary_fiber_g" : String) = "sugars_g")]
  rw [if_pos trivial]

theorem getCol_insertRow_protein_g (ts : String) (it : ChipotleItem) (nid : Nat) :
    getCol (chipotleInsertRow ts it nid) "protein_g" = some (Val.num it.protein_g) := by
  simp only [chipotleInsertRow, getCol, alookup]
  rw [if_neg (by decide : ¬("name" : String) = "protein_g")]
  rw [if_neg (by decide : ¬("restaurant_name" : String) = "protein_g")]
  rw [if_neg (by decide : ¬("serving_size" : String) = "protein_g")]
  rw [if_neg (by decide : ¬("serving_size_grams" : String) = "protein_g")]
  rw [if_neg (by decide : ¬("calories" : String) = "protein_g")]
  rw [if_neg (by decide : ¬("calories_from_fat" : String) = "protein_g")]
  rw [if_neg (by decide : ¬("total_fat_g" : String) = "protein_g")]
  rw [if_neg (by decide : ¬("saturated_fat_g" : String) = "protein_g")]
  rw [if_neg (by decide : ¬("trans_fat_g" : String) = "protein_g")]
  rw [if_neg (by decide : ¬("cholesterol_mg" : String) = "protein_g")]
  rw [if_neg (by decide : ¬("sodium_mg" : String) = "protein_g")]
  rw [if_neg (by decide : ¬("total_carbohydrate_g" : String) = "protein_g")]
  rw [if_neg (by decide : ¬("dietary_fiber_g" : String) = "protein_g")]
  rw [if_neg (by decide : ¬("sugars_g" : String) = "protein_g")]
  rw [if_pos trivial]

theorem getCol_insertRow_data_source (ts : String) (it : ChipotleItem) (nid : Nat) :
    getCol (chipotleInsertRow ts it nid) "data_source" = some (Val.str "Restaurant") := by
  simp only [chipotleInsertRow, getCol, alookup]
  rw [if_neg (by decide : ¬("name" : String) = "data_source")]
  rw [if_neg (by decide : ¬("restaurant_name" : String) = "data_source")]
  rw [if_neg (by decide : ¬("serving_size" : String) = "data_source")]
  rw [if_neg (by decide : ¬("serving_size_grams" : String) = "data_source")]
  rw [if_neg (by decide : ¬("calories" : String) = "data_source")]
  rw [if_neg (by decide : ¬("calories_from_fat" : String) = "data_source")]
  rw [if_neg (by decide : ¬("total_fat_g" : String) = "data_source")]
  rw [if_neg (by decide : ¬("saturated_fat_g" : String) = "data_source")]
  rw [if_neg (by decide : ¬("trans_fat_g" : String) = "data_source")]
  rw [if_neg (by decide : ¬("cholesterol_mg" : String) = "data_source")]
  rw [if_neg (by decide : ¬("sodium_mg" : String) = "data_source")]
  rw [if_neg (by decide : ¬("total_carbohydrate_g" : String) = "data_source")]
  rw [if_neg (by decide : ¬("dietary_fiber_g" : String) = "data_source")]
  rw [if_neg (by decide : ¬("sugars_g" : String) = "data_source")]
  rw [if_neg (by decide : ¬("protein_g" : String) = "data_source")]
  rw [if_pos trivial]

theorem getCol_insertRow_category (ts : String) (it : ChipotleItem) (nid : Nat) :
    getCol (chipotleInsertRow ts it nid) "category" = some (Val.str "Mexican") := by
  simp only [chipotleInsertRow, getCol, alookup]
  rw [if_neg (by decide : ¬("name" : String) = "category")]
  rw [if_neg (by decide : ¬("restaurant_name" : String) = "category")]
  rw [if_neg (by decide : ¬("serving_size" : String) = "category")]
  rw [if_neg (by decide : ¬("serving_size_grams" : String) = "category")]
  rw [if_neg (by decide : ¬("calories" : String) = "category")]
  rw [if_neg (by decide : ¬("calories_from_fat" : String) = "category")]
  rw [if_neg (by decide : ¬("total_fat_g" : String) = "category")]
  rw [if_neg (by decide : ¬("saturated_fat_g" : String) = "category")]
  rw [if_neg (by decide : ¬("trans_fat_g" : String) = "category")]
  rw [if_neg (by decide : ¬("cholesterol_mg" : String) = "category")]
  rw [if_neg (by decide : ¬("sodium_mg" : String) = "category")]
  rw [if_neg (by decide : ¬("total_carbohydrate_g" : String) = "category")]
  rw [if_neg (by decide : ¬("dietary_fiber_g" : String) = "category")]
  rw [if_neg (by decide : ¬("sugars_g" : String) = "category")]
  rw [if_neg (by decide : ¬("protein_g" : String) = "category")]
  rw [if_neg (by decide : ¬("data_source" : String) = "category")]
  rw [if_pos trivial]

theorem getCol_insertRow_search_terms (ts : String) (it : ChipotleItem) (nid : Nat) :
    getCol (chipotleInsertRow ts it nid) "search_terms" = some (Val.str (chipotleSearchTerms it)) := by
  simp only [chipotleInsertRow, getCol, alookup]
  rw [if_neg (by decide : ¬("name" : String) = "search_terms")]
  rw [if_neg (by decide : ¬("restaurant_name" : String) = "search_terms")]
  rw [if_neg (by decide : ¬("serving_size" : String) = "search_terms")]
  rw [if_neg (by decide : ¬("serving_size_grams" : String) = "search_terms")]
  rw [if_neg (by decide : ¬("calories" : String) = "search_terms")]
  rw [if_neg (by decide : ¬("calories_from_fat" : String) = "search_terms")]
  rw [if_neg (by decide : ¬("total_fat_g" : String) = "search_terms")]
  rw [if_neg (by decide : ¬("saturated_fat_g" : String) = "search_terms")]
  rw [if_neg (by decide : ¬("trans_fat_g" : String) = "search_terms")]
  rw [if_neg (by decide : ¬("cholesterol_mg" : String) = "search_terms")]
  rw [if_neg (by decide : ¬("sodium_mg" : String) = "search_terms")]
  rw [if_neg (by decide : ¬("total_carbohydrate_g" : String) = "search_terms")]
  rw [if_neg (by decide : ¬("dietary_fiber_g" : String) = "search_terms")]
  rw [if_neg (by decide : ¬("sugars_g" : String) = "search_terms")]
  rw [if_neg (by decide : ¬("protein_g" : String) = "search_terms")]
  rw [if_neg (by decide : ¬("data_source" : String) = "search_terms")]
  rw [if_neg (by decide : ¬("category" : String) = "search_terms")]
  rw [if_pos trivial]

theorem getCol_insertRow_created_at (ts : String) (it : ChipotleItem) (nid : Nat) :
    getCol (chipotleInsertRow ts it nid) "created_at" = some (Val.str ts) := by
  simp only [chipotleInsertRow, getCol, alookup]
  rw [if_neg (by decide : ¬("name" : String) = "created_at")]
  rw [if_neg (by decide : ¬("restaurant_name" : String) = "created_at")]
  rw [if_neg (by decide : ¬("serving_size" : String) = "created_at")]
  rw [if_neg (by decide : ¬("serving_size_grams" : String) = "created_at")]
  rw [if_neg (by decide : ¬("calories" : String) = "created_at")]
  rw [if_neg (by decide : ¬("calories_from_fat" : String) = "created_at")]
  rw [if_neg (by decide : ¬("total_fat_g" : String) = "created_at")]
  rw [if_neg (by decide : ¬("saturated_fat_g" : String) = "created_at")]
  rw [if_neg (by decide : ¬("trans_fat_g" : String) = "created_at")]
  rw [if_neg (by decide : ¬("cholesterol_mg" : String) = "created_at")]
  rw [if_neg (by decide : ¬("sodium_mg" : String) = "created_at")]
  rw [if_neg (by decide : ¬("total_carbohydrate_g" : String) = "created_at")]
  rw [if_neg (by decide : ¬("dietary_fiber_g" : String) = "created_at")]
  rw [if_neg (by decide : ¬("sugars_g" : String) = "created_at")]
  rw [if_neg (by decide : ¬("protein_g" : String) = "created_at")]
  rw [if_neg (by decide : ¬("data_source" : String) = "created_at")]
  rw [if_neg (by decide : ¬("category" : String) = "created_at")]
  rw [if_neg (by decide : ¬("search_terms" : String) = "created_at")]
  rw [if_pos trivial]

theorem getCol_insertRow_updated_at (ts : String) (it : ChipotleItem) (nid : Nat) :
    getCol (chipotleInsertRow ts it nid) "updated_at" = some (Val.str ts) := by
  simp only [chipotleInsertRow, getCol, alookup]
  rw [if_neg (by decide : ¬("name" : String) = "updated_at")]
  rw [if_neg (by decide : ¬("restaurant_name" : String) = "updated_at")]
  rw [if_neg (by decide : ¬("serving_size" : String) = "updated_at")]
  rw [if_neg (by decide : ¬("serving_size_grams" : String) = "updated_at")]
  rw [if_neg (by decide : ¬("calories" : String) = "updated_at")]
  rw [if_neg (by decide : ¬("calories_from_fat" : String) = "updated_at")]
  rw [if_neg (by decide : ¬("total_fat_g" : String) = "updated_at")]
  rw [if_neg (by decide : ¬("saturated_fat_g" : String) = "updated_at")]
  rw [if_neg (by decide : ¬("trans_fat_g" : String) = "updated_at")]
  rw [if_neg (by decide : ¬("cholesterol_mg" : String) = "updated_at")]
  rw [if_neg (by decide : ¬("sodium_mg" : String) = "updated_at")]
  rw [if_neg (by decide : ¬("total_carbohydrate_g" : String) = "updated_at")]
  rw [if_neg (by decide : ¬("dietary_fiber_g" : String) = "updated_at")]
  rw [if_neg (by decide : ¬("sugars_g" : String) = "updated_at")]
  rw [if_neg (by decide : ¬("protein_g" : String) = "updated_at")]
  rw [if_neg (by decide : ¬("data_source" : String) = "updated_at")]
  rw [if_neg (by decide : ¬("category" : String) = "updated_at")]
  rw [if_neg (by decide : ¬("search_terms" : String) = "updated_at")]
  rw [if_neg (by decide : ¬("created_at" : String) = "updated_at")]
  rw [if_pos trivial]

theorem getCol_updateRow_restaurant (ts : String) (it : ChipotleItem) (r : DBRow) :
    getCol (chipotleUpdateRow ts it r) "restaurant_name" =
      getCol r "restaurant_name" := by
  rw [getCol_chipotleUpdateRow]
  rw [if_neg (by decide : ¬("restaurant_name" : String) = "updated_at")]
  rw [if_neg (by decide : ¬("restaurant_name" : String) = "search_terms")]
  rw [if_neg (by decide : ¬("restaurant_name" : String) = "protein_g")]
  rw [if_neg (by decide : ¬("restaurant_name" : String) = "sugars_g")]
  rw [if_neg (by decide : ¬("restaurant_name" : String) = "dietary_fiber_g")]
  rw [if_neg (by decide : ¬("restaurant_name" : String) = "total_carbohydrate_g")]
  rw [if_neg (by decide : ¬("restaurant_name" : String) = "sodium_mg")]
  rw [if_neg (by decide : ¬("restaurant_name" : String) = "cholesterol_mg")]
  rw [if_neg (by decide : ¬("restaurant_name" : String) = "trans_fat_g")]
  rw [if_neg (by decide : ¬("restaurant_name" : String) = "saturated_fat_g")]
  rw [if_neg (by decide : ¬("restaurant_name" : String) = "total_fat_g")]
  rw [if_neg (by decide : ¬("restaurant_name" : String) = "calories_from_fat")]
  rw [if_neg (by decide : ¬("restaurant_name" : String) = "calories")]
  rw [if_neg (by decide : ¬("restaurant_name" : String) = "serving_size_grams")]
  rw [if_neg (by decide : ¬("restaurant_name" : String) = "serving_size")]

theorem chipotleMatches_updateRow (it it' : ChipotleItem) (ts : String) (r : DBRow) :
    chipotleMatches it (chipotleUpdateRow ts it' r) = chipotleMatches it r := by
  simp only [chipotleMatches, getCol_updateRow_name, getCol_updateRow_restaurant]

theorem chipotleMatches_insertRow (it : ChipotleItem) (ts : String) (nid : Nat) :
    chipotleMatches it (chipotleInsertRow ts it nid) = true := by
  simp only [chipotleMatches, getCol_insertRow_name, getCol_insertRow_restaurant_name]
  rw [Bool.and_eq_true]
  exact ⟨decide_eq_true trivial, decide_eq_true trivial⟩

/-- Re-running the UPDATE with the same item only moves `updated_at`. -/
theorem getCol_update_update (ts1 ts2 : String) (it : ChipotleItem) (r : DBRow)
    (c : String) (hc : c ≠ "updated_at") :
    getCol (chipotleUpdateRow ts2 it (chipotleUpdateRow ts1 it r)) c =
      getCol (chipotleUpdateRow ts1 it r) c := by
  rw [getCol_chipotleUpdateRow ts2, getCol_chipotleUpdateRow ts1]
  by_cases h1 : c = "updated_at"
  · exact absurd h1 hc
  rw [if_neg h1, if_neg h1]
  by_cases h2 : c = "search_terms"
  · rw [if_pos h2, if_pos h2]
  rw [if_neg h2, if_neg h2]
  by_cases h3 : c = "protein_g"
  · rw [if_pos h3, if_pos h3]
  rw [if_neg h3, if_neg h3]
  by_cases h4 : c = "sugars_g"
  · rw [if_pos h4, if_pos h4]
  rw [if_neg h4, if_neg h4]
  by_cases h5 : c = "dietary_fiber_g"
  · rw [if_pos h5, if_pos h5]
  rw [if_neg h5, if_neg h5]
  by_cases h6 : c = "total_carbohydrate_g"
  · rw [if_pos h6, if_pos h6]
  rw [if_neg h6, if_neg h6]
  by_cases h7 : c = "sodium_mg"
  · rw [if_pos h7, if_pos h7]
  rw [if_neg h7, if_neg h7]
  by_cases h8 : c = "cholesterol_mg"
  · rw [if_pos h8, if_pos h8]
  rw [if_neg h8, if_neg h8]
  by_cases h9 : c = "trans_fat_g"
  · rw [if_pos h9, if_pos h9]
  rw [if_neg h9, if_neg h9]
  by_cases h10 : c = "saturated_fat_g"
  · rw [if_pos h10, if_pos h10]
  rw [if_neg h10, if_neg h10]
  by_cases h11 : c = "total_fat_g"
  · rw [if_pos h11, if_pos h11]
  rw [if_neg h11, if_neg h11]
  by_cases h12 : c = "calories_from_fat"
  · rw [if_pos h12, if_pos h12]
  rw [if_neg h12, if_neg h12]
  by_cases h13 : c = "calories"
  · rw [if_pos h13, if_pos h13]
  rw [if_neg h13, if_neg h13]
  by_cases h14 : c = "serving_size_grams"
  · rw [if_pos h14, if_pos h14]
  rw [if_neg h14, if_neg h14]
  by_cases h15 : c = "serving_size"
  · rw [if_pos h15, if_pos h15]
  rw [if_neg h15, if_neg h15]

/-- Updating a freshly inserted row of the same item only moves
`updated_at`. -/
theorem getCol_update_insertRow (ts1 ts2 : String) (it : ChipotleItem) (nid : Nat)
    (c : String) (hc : c ≠ "updated_at") :
    getCol (chipotleUpdateRow ts2 it (chipotleInsertRow ts1 it nid)) c =
      getCol (chipotleInsertRow ts1 it nid) c := by
  rw [getCol_chipotleUpdateRow]
  by_cases h1 : c = "updated_at"
  · exact absurd h1 hc
  rw [if_neg h1]
  by_cases h2 : c = "search_terms"
  · rw [if_pos h2, h2, getCol_insertRow_search_terms]
  rw [if_neg h2]
  by_cases h3 : c = "protein_g"
  · rw [if_pos h3, h3, getCol_insertRow_protein_g]
  rw [if_neg h3]
  by_cases h4 : c = "sugars_g"
  · rw [if_pos h4, h4, getCol_insertRow_sugars_g]
  rw [if_neg h4]
  by_cases h5 : c = "dietary_fiber_g"
  · rw [if_pos h5, h5, getCol_insertRow_dietary_fiber_g]
  rw [if_neg h5]
  by_cases h6 : c = "total_carbohydrate_g"
  · rw [if_pos h6, h6, getCol_insertRow_total_carbohydrate_g]
  rw [if_neg h6]
  by_cases h7 : c = "sodium_mg"
  · rw [if_pos h7, h7, getCol_insertRow_sodium_mg]
  rw [if_neg h7]
  by_cases h8 : c = "cholesterol_mg"
  · rw [if_pos h8, h8, getCol_insertRow_cholesterol_mg]
  rw [if_neg h8]
  by_cases h9 : c = "trans_fat_g"
  · rw [if_pos h9, h9, getCol_insertRow_trans_fat_g]
  rw [if_neg h9]
  by_cases h10 : c = "saturated_fat_g"
  · rw [if_pos h10, h10, getCol_insertRow_saturated_fat_g]
  rw [if_neg h10]
  by_cases h11 : c = "total_fat_g"
  · rw [if_pos h11, h11, getCol_insertRow_total_fat_g]
  rw [if_neg h11]
  by_cases h12 : c = "calories_from_fat"
  · rw [if_pos h12, h12, getCol_insertRow_calories_from_fat]
  rw [if_neg h12]
  by_cases h13 : c = "calories"
  · rw [if_pos h13, h13, getCol_insertRow_calories]
  rw [if_neg h13]
  by_cases h14 : c = "serving_size_grams"
  · rw [if_pos h14, h14, getCol_insertRow_serving_size_grams]
  rw [if_neg h14]
  by_cases h15 : c = "serving_size"
  · rw [if_pos h15, h15, getCol_insertRow_serving_size]
  rw [if_neg h15]

theorem forall2_map_self {α : Type} (f : α → α) (R : α → α → Prop) (l : List α)
    (h : ∀ x ∈ l, R (f x) x) : List.Forall₂ R (l.map f) l := by
  induction l with
  | nil => exact List.Forall₂.nil
  | cons a l ih =>
    exact List.Forall₂.cons (h a (List.mem_cons_self a l))
      (ih fun x hx => h x (List.mem_cons_of_mem a hx))

/-- C3 amended: the Chipotle importer's check-then-update upsert IS
idempotent — upserting the same item twice against any store leaves the
row count unchanged and every row's every column unchanged except
`updated_at` — but the `INSERT OR REPLACE` importers over the `foods`
table are not (see the counterexample): a second identical upsert appends
a duplicate row, because the table has no UNIQUE constraint. -/
theorem C3_amended (it : ChipotleItem) (ts1 ts2 : String) (tbl : List DBRow)
    (nid : Nat) :
    ((addChipotleItem ts2 it (addChipotleItem ts1 it (tbl, nid))).1.length =
      (addChipotleItem ts1 it (tbl, nid)).1.length) ∧
    List.Forall₂ (fun r2 r1 => r2.id = r1.id ∧
        ∀ c, c ≠ "updated_at" → getCol r2 c = getCol r1 c)
      (addChipotleItem ts2 it (addChipotleItem ts1 it (tbl, nid))).1
      (addChipotleItem ts1 it (tbl, nid)).1 := by
  by_cases hm : tbl.any (chipotleMatches it) = true
  · have hs1p : addChipotleItem ts1 it (tbl, nid) =
        (tbl.map (fun r => if chipotleMatches it r then chipotleUpdateRow ts1 it r else r),
         nid) := by
      unfold addChipotleItem
      rw [if_pos hm]
    rw [hs1p]
    have hm2 : (tbl.map
        (fun r => if chipotleMatches it r then chipotleUpdateRow ts1 it r else r)).any
        (chipotleMatches it) = true := by
      rw [List.any_eq_true] at hm ⊢
      obtain ⟨r, hr, hmr⟩ := hm
      refine ⟨chipotleUpdateRow ts1 it r, List.mem_map.mpr ⟨r, hr, by rw [if_pos hmr]⟩, ?_⟩
      rw [chipotleMatches_updateRow]
      exact hmr
    have hs2p : addChipotleItem ts2 it
        (tbl.map (fun r => if chipotleMatches it r then chipotleUpdateRow ts1 it r else r),
         nid) =
        ((tbl.map (fun r => if chipotleMatches it r then chipotleUpdateRow ts1 it r else r)).map
          (fun r => if chipotleMatches it r then chipotleUpdateRow ts2 it r else r),
         nid) := by
      unfold addChipotleItem
      rw [if_pos hm2]
    rw [hs2p]
    refine ⟨List.length_map _ _, ?_⟩
    apply forall2_map_self
    intro x hx
    obtain ⟨r, hr, rfl⟩ := List.mem_map.mp hx
    by_cases hmr : chipotleMatches it r = true
    · rw [if_pos hmr]
      have hmu : chipotleMatches it (chipotleUpdateRow ts1 it r) = true := by
        rw [chipotleMatches_updateRow]
        exact hmr
      rw [if_pos hmu]
      exact ⟨rfl, fun c hc => getCol_update_update ts1 ts2 it r c hc⟩
    · rw [if_neg hmr, if_neg hmr]
      exact ⟨rfl, fun c hc => rfl⟩
  · have hmf : tbl.any (chipotleMatches it) = false := by
      rwa [Bool.not_eq_true] at hm
    have hs1p : addChipotleItem ts1 it (tbl, nid) =
        (tbl ++ [chipotleInsertRow ts1 it nid], nid + 1) := by
      unfold addChipotleItem
      rw [hmf, if_neg (by decide : ¬ (false = true))]
    rw [hs1p]
    have hm2 : (tbl ++ [chipotleInsertRow ts1 it nid]).any (chipotleMatches it) = true := by
      simp only [List.any_append, List.any_cons, List.any_nil,
        chipotleMatches_insertRow, Bool.or_false, Bool.or_true]
    have hs2p : addChipotleItem ts2 it
        (tbl ++ [chipotleInsertRow ts1 it nid], nid + 1) =
        ((tbl ++ [chipotleInsertRow ts1 it nid]).map
          (fun r => if chipotleMatches it r then chipotleUpdateRow ts2 it r else r),
         nid + 1) := by
      unfold addChipotleItem
      rw [if_pos hm2]
    rw [hs2p]
    refine ⟨List.length_map _ _, ?_⟩
    apply forall2_map_self
    intro x hx
    rcases List.mem_append.mp hx with hxt | hxi
    · by_cases hmx : chipotleMatches it x = true
      · exact absurd (List.any_eq_true.mpr ⟨x, hxt, hmx⟩) hm
      · rw [if_neg hmx]
        exact ⟨rfl, fun c hc => rfl⟩
    · rw [List.mem_singleton] at hxi
      subst hxi
      rw [if_pos (chipotleMatches_insertRow it ts1 nid)]
      exact ⟨rfl, fun c hc => getCol_update_insertRow ts1 ts2 it nid c hc⟩

/-! Column-by-column readings of the UPDATE result (`add_chipotle_data.py`
lines 545-569): listed columns take the item's values, others pass through. -/

theorem getCol_updateRow_val_updated_at (ts : String) (it : ChipotleItem) (r : DBRow) :
    getCol (chipotleUpdateRow ts it r) "updated_at" = some (Val.str ts) := by
  rw [getCol_chipotleUpdateRow]
  rw [if_pos rfl]

theorem getCol_updateRow_val_search_terms (ts : String) (it : ChipotleItem) (r : DBRow) :
    getCol (chipotleUpdateRow ts it r) "search_terms" = some (Val.str (chipotleSearchTerms it)) := by
  rw [getCol_chipotleUpdateRow]
  rw [if_neg (by decide : ¬("search_terms" : String) = "updated_at")]
  rw [if_pos rfl]

theorem getCol_updateRow_val_protein_g (ts : String) (it : ChipotleItem) (r : DBRow) :
    getCol (chipotleUpdateRow ts it r) "protein_g" = some (Val.num it.protein_g) := by
  rw [getCol_chipotleUpdateRow]
  rw [if_neg (by decide : ¬("protein_g" : String) = "updated_at")]
  rw [if_neg (by decide : ¬("protein_g" : String) = "search_terms")]
  rw [if_pos rfl]

theorem getCol_updateRow_val_sugars_g (ts : String) (it : ChipotleItem) (r : DBRow) :
    getCol (chipotleUpdateRow ts it r) "sugars_g" = some (Val.num it.sugar_g) := by
  rw [getCol_chipotleUpdateRow]
  rw [if_neg (by decide : ¬("sugars_g" : String) = "updated_at")]
  rw [if_neg (by decide : ¬("sugars_g" : String) = "search_terms")]
  rw [if_neg (by decide : ¬("sugars_g" : String) = "protein_g")]
  rw [if_pos rfl]

theorem getCol_updateRow_val_dietary_fiber_g (ts : String) (it : ChipotleItem) (r : DBRow) :
    getCol (chipotleUpdateRow ts it r) "dietary_fiber_g" = some (Val.num it.dietary_fiber_g) := by
  rw [getCol_chipotleUpdateRow]
  rw [if_neg (by decide : ¬("dietary_fiber_g" : String) = "updated_at")]
  rw [if_neg (by decide : ¬("dietary_fiber_g" : String) = "search_terms")]
  rw [if_neg (by decide : ¬("dietary_fiber_g" : String) = "protein_g")]
  rw [if_neg (by decide : ¬("dietary_fiber_g" : String) = "sugars_g")]
  rw [if_pos rfl]

theorem getCol_updateRow_val_total_carbohydrate_g (ts : String) (it : ChipotleItem) (r : DBRow) :
    getCol (chipotleUpdateRow ts it r) "total_carbohydrate_g" = some (Val.num it.carbohydrates_g) := by
  rw [getCol_chipotleUpdateRow]
  rw [if_neg (by decide : ¬("total_carbohydrate_g" : String) = "updated_at")]
  rw [if_neg (by decide : ¬("total_carbohydrate_g" : String) = "search_terms")]
  rw [if_neg (by decide : ¬("total_carbohydrate_g" : String) = "protein_g")]
  rw [if_neg (by decide : ¬("total_carbohydrate_g" : String) = "sugars_g")]
  rw [if_neg (by decide : ¬("total_carbohydrate_g" : String) = "dietary_fiber_g")]
  rw [if_pos rfl]

theorem getCol_updateRow_val_sodium_mg (ts : String) (it : ChipotleItem) (r : DBRow) :
    getCol (chipotleUpdateRow ts it r) "sodium_mg" = some (Val.num it.sodium_mg) := by
  rw [getCol_chipotleUpdateRow]
  rw [if_neg (by decide : ¬("sodium_mg" : String) = "updated_at")]
  rw [if_neg (by decide : ¬("sodium_mg" : String) = "search_terms")]
  rw [if_neg (by decide : ¬("sodium_mg" : String) = "protein_g")]
  rw [if_neg (by decide : ¬("sodium_mg" : String) = "sugars_g")]
  rw [if_neg (by decide : ¬("sodium_mg" : String) = "dietary_fiber_g")]
  rw [if_neg (by decide : ¬("sodium_mg" : String) = "total_carbohydrate_g")]
  rw [if_pos rfl]

theorem getCol_updateRow_val_cholesterol_mg (ts : String) (it : ChipotleItem) (r : DBRow) :
    getCol (chipotleUpdateRow ts it r) "cholesterol_mg" = some (Val.num it.cholesterol_mg) := by
  rw [getCol_chipotleUpdateRow]
  rw [if_neg (by decide : ¬("cholesterol_mg" : String) = "updated_at")]
  rw [if_neg (by decide : ¬("cholesterol_mg" : String) = "search_terms")]
  rw [if_neg (by decide : ¬("cholesterol_mg" : String) = "protein_g")]
  rw [if_neg (by decide : ¬("cholesterol_mg" : String) = "sugars_g")]
  rw [if_neg (by decide : ¬("cholesterol_mg" : String) = "dietary_fiber_g")]
  rw [if_neg (by decide : ¬("cholesterol_mg" : String) = "total_carbohydrate_g")]
  rw [if_neg (by decide : ¬("cholesterol_mg" : String) = "sodium_mg")]
  rw [if_pos rfl]

theorem getCol_updateRow_val_trans_fat_g (ts : String) (it : ChipotleItem) (r : DBRow) :
    getCol (chipotleUpdateRow ts it r) "trans_fat_g" = some (Val.num it.trans_fat_g) := by
  rw [getCol_chipotleUpdateRow]
  rw [if_neg (by decide : ¬("trans_fat_g" : String) = "updated_at")]
  rw [if_neg (by decide : ¬("trans_fat_g" : String) = "search_terms")]
  rw [if_neg (by decide : ¬("trans_fat_g" : String) = "protein_g")]
  rw [if_neg (by decide : ¬("trans_fat_g" : String) = "sugars_g")]
  rw [if_neg (by decide : ¬("trans_fat_g" : String) = "dietary_fiber_g")]
  rw [if_neg (by decide : ¬("trans_fat_g" : String) = "total_carbohydrate_g")]
  rw [if_neg (by decide : ¬("trans_fat_g" : String) = "sodium_mg")]
  rw [if_neg (by decide : ¬("trans_fat_g" : String) = "cholesterol_mg")]
  rw [if_pos rfl]

theorem getCol_updateRow_val_saturated_fat_g (ts : String) (it : ChipotleItem) (r : DBRow) :
    getCol (chipotleUpdateRow ts it r) "saturated_fat_g" = some (Val.num it.saturated_fat_g) := by
  rw [getCol_chipotleUpdateRow]
  rw [if_neg (by decide : ¬("saturated_fat_g" : String) = "updated_at")]
  rw [if_neg (by decide : ¬("saturated_fat_g" : String) = "search_terms")]
  rw [if_neg (by decide : ¬("saturated_fat_g" : String) = "protein_g")]
  rw [if_neg (by decide : ¬("saturated_fat_g" : String) = "sugars_g")]
  rw [if_neg (by decide : ¬("saturated_fat_g" : String) = "dietary_fiber_g")]
  rw [if_neg (by decide : ¬("saturated_fat_g" : String) = "total_carbohydrate_g")]
  rw [if_neg (by decide : ¬("saturated_fat_g" : String) = "sodium_mg")]
  rw [if_neg (by decide : ¬("saturated_fat_g" : String) = "cholesterol_mg")]
  rw [if_neg (by decide : ¬("saturated_fat_g" : String) = "trans_fat_g")]
  rw [if_pos rfl]

theorem getCol_updateRow_val_total_fat_g (ts : String) (it : ChipotleItem) (r : DBRow) :
    getCol (chipotleUpdateRow ts it r) "total_fat_g" = some (Val.num it.total_fat_g) := by
  rw [getCol_chipotleUpdateRow]
  rw [if_neg (by decide : ¬("total_fat_g" : String) = "updated_at")]
  rw [if_neg (by decide : ¬("total_fat_g" : String) = "search_terms")]
  rw [if_neg (by decide : ¬("total_fat_g" : String) = "protein_g")]
  rw [if_neg (by decide : ¬("total_fat_g" : String) = "sugars_g")]
  rw [if_neg (by decide : ¬("total_fat_g" : String) = "dietary_fiber_g")]
  rw [if_neg (by decide : ¬("total_fat_g" : String) = "total_carbohydrate_g")]
  rw [if_neg (by decide : ¬("total_fat_g" : String) = "sodium_mg")]
  rw [if_neg (by decide : ¬("total_fat_g" : String) = "cholesterol_mg")]
  rw [if_neg (by decide : ¬("total_fat_g" : String) = "trans_fat_g")]
  rw [if_neg (by decide : ¬("total_fat_g" : String) = "saturated_fat_g")]
  rw [if_pos rfl]

theorem getCol_updateRow_val_calories_from_fat (ts : String) (it : ChipotleItem) (r : DBRow) :
    getCol (chipotleUpdateRow ts it r) "calories_from_fat" = some (Val.num it.calories_from_fat) := by
  rw [getCol_chipotleUpdateRow]
  rw [if_neg (by decide : ¬("calories_from_fat" : String) = "updated_at")]
  rw [if_neg (by decide : ¬("calories_from_fat" : String) = "search_terms")]
  rw [if_neg (by decide : ¬("calories_from_fat" : String) = "protein_g")]
  rw [if_neg (by decide : ¬("calories_from_fat" : String) = "sugars_g")]
  rw [if_neg (by decide : ¬("calories_from_fat" : String) = "dietary_fiber_g")]
  rw [if_neg (by decide : ¬("calories_from_fat" : String) = "total_carbohydrate_g")]
  rw [if_neg (by decide : ¬("calories_from_fat" : String) = "sodium_mg")]
  rw [if_neg (by decide : ¬("calories_from_fat" : String) = "cholesterol_mg")]
  rw [if_neg (by decide : ¬("calories_from_fat" : String) = "trans_fat_g")]
  rw [if_neg (by decide : ¬("calories_from_fat" : String) = "saturated_fat_g")]
  rw [if_neg (by decide : ¬("calories_from_fat" : String) = "total_fat_g")]
  rw [if_pos rfl]

theorem getCol_updateRow_val_calories (ts : String) (it : ChipotleItem) (r : DBRow) :
    getCol (chipotleUpdateRow ts it r) "calories" = some (Val.num it.calories) := by
  rw [getCol_chipotleUpdateRow]
  rw [if_neg (by decide : ¬("calories" : String) = "updated_at")]
  rw [if_neg (by decide : ¬("calories" : String) = "search_terms")]
  rw [if_neg (by decide : ¬("calories" : String) = "protein_g")]
  rw [if_neg (by decide : ¬("calories" : String) = "sugars_g")]
  rw [if_neg (by decide : ¬("calories" : String) = "dietary_fiber_g")]
  rw [if_neg (by decide : ¬("calories" : String) = "total_carbohydrate_g")]
  rw [if_neg (by decide : ¬("calories" : String) = "sodium_mg")]
  rw [if_neg (by decide : ¬("calories" : String) = "cholesterol_mg")]
  rw [if_neg (by decide : ¬("calories" : String) = "trans_fat_g")]
  rw [if_neg (by decide : ¬("calories" : String) = "saturated_fat_g")]
  rw [if_neg (by decide : ¬("calories" : String) = "total_fat_g")]
  rw [if_neg (by decide : ¬("calories" : String) = "calories_from_fat")]
  rw [if_pos rfl]

theorem getCol_updateRow_val_serving_size_grams (ts : String) (it : ChipotleItem) (r : DBRow) :
    getCol (chipotleUpdateRow ts it r) "serving_size_grams" = some (Val.num (convert_portion_to_grams it.portion)) := by
  rw [getCol_chipotleUpdateRow]
  rw [if_neg (by decide : ¬("serving_size_grams" : String) = "updated_at")]
  rw [if_neg (by decide : ¬("serving_size_grams" : String) = "search_terms")]
  rw [if_neg (by decide : ¬("serving_size_grams" : String) = "protein_g")]
  rw [if_neg (by decide : ¬("serving_size_grams" : String) = "sugars_g")]
  rw [if_neg (by decide : ¬("serving_size_grams" : String) = "dietary_fiber_g")]
  rw [if_neg (by decide : ¬("serving_size_grams" : String) = "total_carbohydrate_g")]
  rw [if_neg (by decide : ¬("serving_size_grams" : String) = "sodium_mg")]
  rw [if_neg (by decide : ¬("serving_size_grams" : String) = "cholesterol_mg")]
  rw [if_neg (by decide : ¬("serving_size_grams" : String) = "trans_fat_g")]
  rw [if_neg (by decide : ¬("serving_size_grams" : String) = "saturated_fat_g")]
  rw [if_neg (by decide : ¬("serving_size_grams" : String) = "total_fat_g")]
  rw [if_neg (by decide : ¬("serving_size_grams" : String) = "calories_from_fat")]
  rw [if_neg (by decide : ¬("serving_size_grams" : String) = "calories")]
  rw [if_pos rfl]

theorem getCol_updateRow_val_serving_size (ts : String) (it : ChipotleItem) (r : DBRow) :
    getCol (chipotleUpdateRow ts it r) "serving_size" = some (Val.str it.portion) := by
  rw [getCol_chipotleUpdateRow]
  rw [if_neg (by decide : ¬("serving_size" : String) = "updated_at")]
  rw [if_neg (by decide : ¬("serving_size" : String) = "search_terms")]
  rw [if_neg (by decide : ¬("serving_size" : String) = "protein_g")]
  rw [if_neg (by decide : ¬("serving_size" : String) = "sugars_g")]
  rw [if_neg (by decide : ¬("serving_size" : String) = "dietary_fiber_g")]
  rw [if_neg (by decide : ¬("serving_size" : String) = "total_carbohydrate_g")]
  rw [if_neg (by decide : ¬("serving_size" : String) = "sodium_mg")]
  rw [if_neg (by decide : ¬("serving_size" : String) = "cholesterol_mg")]
  rw [if_neg (by decide : ¬("serving_size" : String) = "trans_fat_g")]
  rw [if_neg (by decide : ¬("serving_size" : String) = "saturated_fat_g")]
  rw [if_neg (by decide : ¬("serving_size" : String) = "total_fat_g")]
  rw [if_neg (by decide : ¬("serving_size" : String) = "calories_from_fat")]
  rw [if_neg (by decide : ¬("serving_size" : String) = "calories")]
  rw [if_neg (by decide : ¬("serving_size" : String) = "serving_size_grams")]
  rw [if_pos rfl]

theorem getCol_updateRow_keep_data_source (ts : String) (it : ChipotleItem) (r : DBRow) :
    getCol (chipotleUpdateRow ts it r) "data_source" = getCol r "data_source" := by
  rw [getCol_chipotleUpdateRow]
  rw [if_neg (by decide : ¬("data_source" : String) = "updated_at")]
  rw [if_neg (by decide : ¬("data_source" : String) = "search_terms")]
  rw [if_neg (by decide : ¬("data_source" : String) = "protein_g")]
  rw [if_neg (by decide : ¬("data_source" : String) = "sugars_g")]
  rw [if_neg (by decide : ¬("data_source" : String) = "dietary_fiber_g")]
  rw [if_neg (by decide : ¬("data_source" : String) = "total_carbohydrate_g")]
  rw [if_neg (by decide : ¬("data_source" : String) = "sodium_mg")]
  rw [if_neg (by decide : ¬("data_source" : String) = "cholesterol_mg")]
  rw [if_neg (by decide : ¬("data_source" : String) = "trans_fat_g")]
  rw [if_neg (by decide : ¬("data_source" : String) = "saturated_fat_g")]
  rw [if_neg (by decide : ¬("data_source" : String) = "total_fat_g")]
  rw [if_neg (by decide : ¬("data_source" : String) = "calories_from_fat")]
  rw [if_neg (by decide : ¬("data_source" : String) = "calories")]
  rw [if_neg (by decide : ¬("data_source" : String) = "serving_size_grams")]
  rw [if_neg (by decide : ¬("data_source" : String) = "serving_size")]

theorem getCol_updateRow_keep_category (ts : String) (it : ChipotleItem) (r : DBRow) :
    getCol (chipotleUpdateRow ts it r) "category" = getCol r "category" := by
  rw [getCol_chipotleUpdateRow]
  rw [if_neg (by decide : ¬("category" : String) = "updated_at")]
  rw [if_neg (by decide : ¬("category" : String) = "search_terms")]
  rw [if_neg (by decide : ¬("category" : String) = "protein_g")]
  rw [if_neg (by decide : ¬("category" : String) = "sugars_g")]
  rw [if_neg (by decide : ¬("category" : String) = "dietary_fiber_g")]
  rw [if_neg (by decide : ¬("category" : String) = "total_carbohydrate_g")]
  rw [if_neg (by decide : ¬("category" : String) = "sodium_mg")]
  rw [if_neg (by decide : ¬("category" : String) = "cholesterol_mg")]
  rw [if_neg (by decide : ¬("category" : String) = "trans_fat_g")]
  rw [if_neg (by decide : ¬("category" : String) = "saturated_fat_g")]
  rw [if_neg (by decide : ¬("category" : String) = "total_fat_g")]
  rw [if_neg (by decide : ¬("category" : String) = "calories_from_fat")]
  rw [if_neg (by decide : ¬("category" : String) = "calories")]
  rw [if_neg (by decide : ¬("category" : String) = "serving_size_grams")]
  rw [if_neg (by decide : ¬("category" : String) = "serving_size")]

theorem getCol_updateRow_keep_created_at (ts : String) (it : ChipotleItem) (r : DBRow) :
    getCol (chipotleUpdateRow ts it r) "created_at" = getCol r "created_at" := by
  rw [getCol_chipotleUpdateRow]
  rw [if_neg (by decide : ¬("created_at" : String) = "updated_at")]
  rw [if_neg (by decide : ¬("created_at" : String) = "search_terms")]
  rw [if_neg (by decide : ¬("created_at" : String) = "protein_g")]
  rw [if_neg (by decide : ¬("created_at" : String) = "sugars_g")]
  rw [if_neg (by decide : ¬("created_at" : String) = "dietary_fiber_g")]
  rw [if_neg (by decide : ¬("created_at" : String) = "total_carbohydrate_g")]
  rw [if_neg (by decide : ¬("created_at" : String) = "sodium_mg")]
  rw [if_neg (by decide : ¬("created_at" : String) = "cholesterol_mg")]
  rw [if_neg (by decide : ¬("created_at" : String) = "trans_fat_g")]
  rw [if_neg (by decide : ¬("created_at" : String) = "saturated_fat_g")]
  rw [if_neg (by decide : ¬("created_at" : String) = "total_fat_g")]
  rw [if_neg (by decide : ¬("created_at" : String) = "calories_from_fat")]
  rw [if_neg (by decide : ¬("created_at" : String) = "calories")]
  rw [if_neg (by decide : ¬("created_at" : String) = "serving_size_grams")]
  rw [if_neg (by decide : ¬("created_at" : String) = "serving_size")]

/-- The Chipotle importer's merge behaviour: upserting item B after item A
with the same name yields one row holding B's values for every column the
UPDATE statement lists and A's insert-time values for the columns it does
not (`name`, `restaurant_name`, `data_source`, `category`, `created_at`). -/
theorem C2_chipotle_merge (A B : ChipotleItem) (ts1 ts2 : String) (nid : Nat)
    (hn : B.item_name = A.item_name) :
    ∃ r, (addChipotleItem ts2 B (addChipotleItem ts1 A ([], nid))).1 = [r] ∧
      getCol r "serving_size" = some (Val.str B.portion) ∧
      getCol r "serving_size_grams" =
        some (Val.num (convert_portion_to_grams B.portion)) ∧
      getCol r "calories" = some (Val.num B.calories) ∧
      getCol r "calories_from_fat" = some (Val.num B.calories_from_fat) ∧
      getCol r "total_fat_g" = some (Val.num B.total_fat_g) ∧
      getCol r "saturated_fat_g" = some (Val.num B.saturated_fat_g) ∧
      getCol r "trans_fat_g" = some (Val.num B.trans_fat_g) ∧
      getCol r "cholesterol_mg" = some (Val.num B.cholesterol_mg) ∧
      getCol r "sodium_mg" = some (Val.num B.sodium_mg) ∧
      getCol r "total_carbohydrate_g" = some (Val.num B.carbohydrates_g) ∧
      getCol r "dietary_fiber_g" = some (Val.num B.dietary_fiber_g) ∧
      getCol r "sugars_g" = some (Val.num B.sugar_g) ∧
      getCol r "protein_g" = some (Val.num B.protein_g) ∧
      getCol r "search_terms" = some (Val.str (chipotleSearchTerms B)) ∧
      getCol r "updated_at" = some (Val.str ts2) ∧
      getCol r "name" = some (Val.str A.item_name) ∧
      getCol r "restaurant_name" = some (Val.str "Chipotle") ∧
      getCol r "data_source" = some (Val.str "Restaurant") ∧
      getCol r "category" = some (Val.str "Mexican") ∧
      getCol r "created_at" = some (Val.str ts1) := by
  have h1p : addChipotleItem ts1 A ([], nid) = ([chipotleInsertRow ts1 A nid], nid + 1) := rfl
  have hmB : chipotleMatches B (chipotleInsertRow ts1 A nid) = true := by
    simp only [chipotleMatches, getCol_insertRow_name, getCol_insertRow_restaurant_name, hn]
    rw [Bool.and_eq_true]
    exact ⟨decide_eq_true trivial, decide_eq_true trivial⟩
  have ha : ([chipotleInsertRow ts1 A nid].any (chipotleMatches B)) = true := by
    simp only [List.any_cons, List.any_nil, Bool.or_false, hmB]
  have h2p : addChipotleItem ts2 B ([chipotleInsertRow ts1 A nid], nid + 1) =
      ([chipotleUpdateRow ts2 B (chipotleInsertRow ts1 A nid)], nid + 1) := by
    unfold addChipotleItem
    rw [ha, if_pos rfl, List.map_cons, List.map_nil, if_pos hmB]
  refine ⟨chipotleUpdateRow ts2 B (chipotleInsertRow ts1 A nid),
    by rw [h1p, h2p], getCol_updateRow_val_serving_size ts2 B _,
    getCol_updateRow_val_serving_size_grams ts2 B _,
    getCol_updateRow_val_calories ts2 B _,
    getCol_updateRow_val_calories_from_fat ts2 B _,
    getCol_updateRow_val_total_fat_g ts2 B _,
    getCol_updateRow_val_saturated_fat_g ts2 B _,
    getCol_updateRow_val_trans_fat_g ts2 B _,
    getCol_updateRow_val_cholesterol_mg ts2 B _,
    getCol_updateRow_val_sodium_mg ts2 B _,
    getCol_updateRow_val_total_carbohydrate_g ts2 B _,
    getCol_updateRow_val_dietary_fiber_g ts2 B _,
    getCol_updateRow_val_sugars_g ts2 B _,
    getCol_updateRow_val_protein_g ts2 B _,
    getCol_updateRow_val_search_terms ts2 B _,
    getCol_updateRow_val_updated_at ts2 B _,
    ?_, ?_, ?_, ?_, ?_⟩
  · rw [getCol_updateRow_name, getCol_insertRow_name]
  · rw [getCol_updateRow_restaurant, getCol_insertRow_restaurant_name]
  · rw [getCol_updateRow_keep_data_source, getCol_insertRow_data_source]
  · rw [getCol_updateRow_keep_category, getCol_insertRow_category]
  · rw [getCol_updateRow_keep_created_at, getCol_insertRow_created_at]


end GemYum

namespace GemYum

/-- C2 counterexample: upserting B after A (same identity: name "Taco",
restaurant "Chipotle", source "Restaurant Menu Data") through `insert_food`
does NOT yield a single merged row: the store ends with two rows, and no
row holds both A's `calories` and B's `protein_g`. -/
theorem C2_counterexample :
    c2Table.length = 2 ∧
    c2Table.all (fun r =>
      !((getCol r "calories").isSome && (getCol r "protein_g").isSome)) = true := by
  refine ⟨by decide, by decide⟩

/-- C2 amended: the field-merge behaviour holds for the Chipotle importer's
check-then-update upsert — every column B supplies (the UPDATE's fixed
list) gets B's value, every column B omits keeps A's value — and omitted
fields really are stored as NULL on insert, never zero (a Kale candidate
with an explicit `None` calories kwarg yields one row whose `calories`
column is NULL).  The `INSERT OR REPLACE` importers do not merge at all
(see the counterexample). -/
theorem C2_amended (A B : ChipotleItem) (ts1 ts2 : String) (nid : Nat)
    (hn : B.item_name = A.item_name) :
    (∃ r, (addChipotleItem ts2 B (addChipotleItem ts1 A ([], nid))).1 = [r] ∧
      getCol r "serving_size" = some (Val.str B.portion) ∧
      getCol r "serving_size_grams" =
        some (Val.num (convert_portion_to_grams B.portion)) ∧
      getCol r "calories" = some (Val.num B.calories) ∧
      getCol r "calories_from_fat" = some (Val.num B.calories_from_fat) ∧
      getCol r "total_fat_g" = some (Val.num B.total_fat_g) ∧
      getCol r "saturated_fat_g" = some (Val.num B.saturated_fat_g) ∧
      getCol r "trans_fat_g" = some (Val.num B.trans_fat_g) ∧
      getCol r "cholesterol_mg" = some (Val.num B.cholesterol_mg) ∧
      getCol r "sodium_mg" = some (Val.num B.sodium_mg) ∧
      getCol r "total_carbohydrate_g" = some (Val.num B.carbohydrates_g) ∧
      getCol r "dietary_fiber_g" = some (Val.num B.dietary_fiber_g) ∧
      getCol r "sugars_g" = some (Val.num B.sugar_g) ∧
      getCol r "protein_g" = some (Val.num B.protein_g) ∧
      getCol r "search_terms" = some (Val.str (chipotleSearchTerms B)) ∧
      getCol r "updated_at" = some (Val.str ts2) ∧
      getCol r "name" = some (Val.str A.item_name) ∧
      getCol r "restaurant_name" = some (Val.str "Chipotle") ∧
      getCol r "data_source" = some (Val.str "Restaurant") ∧
      getCol r "category" = some (Val.str "Mexican") ∧
      getCol r "created_at" = some (Val.str ts1)) ∧
    (c2KaleTable.length = 1 ∧
      getCol (c2KaleTable.getD 0 ⟨0, []⟩) "calories" = none ∧
      getCol (c2KaleTable.getD 0 ⟨0, []⟩) "name" = some (Val.str "Kale")) :=
  ⟨C2_chipotle_merge A B ts1 ts2 nid hn, by decide, by decide, by decide⟩

/-- C2 amended, witnessed on two concrete Chipotle items sharing a name. -/
theorem C2_amended_witness :
    (addChipotleItem "t2" chipotleCrispyCornTortillaV2
      (addChipotleItem "t1" chipotleCrispyCornTortilla ([], 0))).1.length = 1 := by
  obtain ⟨⟨r, hr, -⟩, -⟩ := C2_amended chipotleCrispyCornTortilla
    chipotleCrispyCornTortillaV2 "t1" "t2" 0 rfl
  rw [hr]
  rfl

/-- C3 counterexample: importing the identical candidate (name "Pho Tai",
restaurant "Pho 24") twice through `insert_food` is not idempotent — the
store grows from one row to two. -/
theorem C3_counterexample :
    ((insert_food "Pho 24" c3kw [] 1).getD []).length = 1 ∧ c3Table.length = 2 := by
  refine ⟨by decide, by decide⟩

/-- C3 amended, witnessed: double-upserting a concrete Chipotle item keeps
the row count at one. -/
theorem C3_amended_witness :
    (addChipotleItem "t2" chipotleCrispyCornTortilla
      (addChipotleItem "t1" chipotleCrispyCornTortilla ([], 0))).1.length =
    (addChipotleItem "t1" chipotleCrispyCornTortilla ([], 0)).1.length :=
  (C3_amended chipotleCrispyCornTortilla "t1" "t2" [] 0).1

end GemYum
